import Mathlib

/-!
# gstPipeline: frame hand-off, converted pool and lifecycle

A shallow embedding of `src/camera/gstPipeline.cpp` (class `gstPipeline`).

* Pointers are natural numbers, `0` being `NULL`.
* The three slot arrays (`mRingbufferCPU`, `mRingbufferGPU`, `mRGBA`) are maps from the
  slot number to the pointer stored there; the loops of the source visit the slots
  `0 .. NUM_RINGBUFFERS-1` and the two indices stay below `NUM_RINGBUFFERS`
  (`gstPipeline.Inv`, kept by `checkBuffer`, `Capture` and `ConvertRGBA`).
* `uint32_t` arithmetic is arithmetic on `Nat` reduced modulo `2^32`.
* `checkBuffer` answers `none` where the source has no outcome (a division by zero, a copy
  outside a mapped block).
* What the collaborators answer (GStreamer state changes, the wait on `mWaitEvent`, the CUDA
  allocators and kernels, the sample pulled from the app sink) is an argument of the
  operation; what the operation asks of them is recorded, in order, in a list of `Call`s.
-/

namespace GstPipeline

/-- Address of a buffer; `0` is the `NULL` pointer. -/
abbrev Ptr := Nat

/-- The constant `NUM_RINGBUFFERS` of `gstPipeline.h`. -/
def NUM_RINGBUFFERS : Nat := 16

/-- Number of values of a `uint32_t`. -/
def UINT32_RANGE : Nat := 2 ^ 32

/-- The value of `sizeof(float4)`. -/
def SIZEOF_FLOAT4 : Nat := 16

/-- Result of `gst_element_set_state`. -/
inductive GstStateChangeReturn
  | FAILURE
  | SUCCESS
  | ASYNC
  | NO_PREROLL
  deriving DecidableEq, Repr

/-- Target states requested from the engine by `Open` and `Close`. -/
inductive GstState
  | NULL
  | PLAYING
  deriving DecidableEq, Repr

/-- Requests made to the collaborators, in the order the source makes them. -/
inductive Call
  | setState (target : GstState)
  | checkMsgBus
  | usleep (us : Nat)
  | wait (timeout : Nat)
  | wake
  | cudaFreeHost (p : Ptr)
  | cudaFree (p : Ptr)
  | cudaAllocMapped (size : Nat)
  | cudaMalloc (size : Nat)
  | cudaNV12ToRGBA32 (input output : Ptr) (width height : Nat)
  | cudaRGB8ToRGBA32 (input output : Ptr) (width height : Nat)
  | memcpy (dst src : Ptr) (size : Nat)
  | bufferUnmap
  | sampleUnref
  deriving DecidableEq, Repr

/-- Caps structure of a sample: `gst_structure_get_int` fails on a missing field. -/
structure GstStructure where
  width : Option Int
  height : Option Int

/-- Caps of a sample; `gst_caps_get_structure` may answer `NULL`. -/
structure GstCaps where
  structure0 : Option GstStructure

/-- Mapped view of a buffer: data pointer, byte count and the frame the bytes encode. -/
structure GstMapInfo where
  data : Ptr
  size : Nat
  frame : Nat

/-- Buffer of a sample; `gst_buffer_map` may fail. -/
structure GstBuffer where
  map : Option GstMapInfo

/-- Sample pulled from the app sink. -/
structure GstSample where
  buffer : Option GstBuffer
  caps : Option GstCaps

/-- Answers of the CUDA layer during one operation: the n-th slot allocation of either kind
(`none` is a failure and leaves the destination as it was) and the verdict of the kernel. -/
structure CudaEnv where
  allocMapped : Nat → Option (Ptr × Ptr)
  malloc : Nat → Option Ptr
  kernelOk : Bool

/-- Member variables of `gstPipeline`, and the host memory its raw slots point into:
`hostMem p` is the frame whose bytes were last copied to address `p`, `hostSize p` the
number of bytes of the mapped allocation that starts at `p` (0 when there is none). -/
structure gstPipeline where
  mAppSink : Ptr
  mStreaming : Bool
  mWidth : Nat
  mHeight : Nat
  mDepth : Nat
  mSize : Nat
  mRingbufferCPU : Nat → Ptr
  mRingbufferGPU : Nat → Ptr
  mLatestRGBA : Nat
  mLatestRingbuffer : Nat
  mLatestRetrieved : Bool
  mRGBA : Nat → Ptr
  mRGBAZeroCopy : Bool
  hostMem : Ptr → Nat
  hostSize : Ptr → Nat

namespace gstPipeline

/-- State set up by the constructor followed by the assignments of `Create`
(`init` stores the app sink). -/
def Create (appSink : Ptr) (width height depth : Nat) : gstPipeline where
  mAppSink := appSink
  mStreaming := false
  mWidth := width
  mHeight := height
  mDepth := depth
  mSize := ((width * height * depth) % UINT32_RANGE) / 8
  mRingbufferCPU := fun _ => 0
  mRingbufferGPU := fun _ => 0
  mLatestRGBA := 0
  mLatestRingbuffer := 0
  mLatestRetrieved := false
  mRGBA := fun _ => 0
  mRGBAZeroCopy := false
  hostMem := fun _ => 0
  hostSize := fun _ => 0

/-- Both slot indices address an existing slot. -/
def Inv (s : gstPipeline) : Prop :=
  s.mLatestRGBA < NUM_RINGBUFFERS ∧ s.mLatestRingbuffer < NUM_RINGBUFFERS

/-! ## Lifecycle -/

/-- Outcome of `Open`: state, return value, requests made. -/
structure OpenResult where
  state : gstPipeline
  ret : Bool
  calls : List Call

/-- `gstPipeline::Open`; `result` is what `gst_element_set_state` answers if it is asked. -/
def Open (s : gstPipeline) (result : GstStateChangeReturn) : OpenResult :=
  if s.mStreaming then
    { state := s, ret := true, calls := [] }
  else if result = GstStateChangeReturn.ASYNC then
    { state := { s with mStreaming := true }, ret := true,
      calls := [Call.setState GstState.PLAYING, Call.checkMsgBus, Call.usleep 100000,
                Call.checkMsgBus] }
  else if result ≠ GstStateChangeReturn.SUCCESS then
    { state := s, ret := false, calls := [Call.setState GstState.PLAYING] }
  else
    { state := { s with mStreaming := true }, ret := true,
      calls := [Call.setState GstState.PLAYING, Call.checkMsgBus, Call.usleep 100000,
                Call.checkMsgBus] }

/-- Outcome of `Close`: state and requests made. -/
structure CloseResult where
  state : gstPipeline
  calls : List Call

/-- `gstPipeline::Close`; `result` is what `gst_element_set_state` answers if it is asked. -/
def Close (s : gstPipeline) (result : GstStateChangeReturn) : CloseResult :=
  if !s.mStreaming then
    { state := s, calls := [] }
  else if result ≠ GstStateChangeReturn.SUCCESS then
    { state := { s with mStreaming := false },
      calls := [Call.setState GstState.NULL, Call.usleep 250000] }
  else
    { state := { s with mStreaming := false },
      calls := [Call.setState GstState.NULL, Call.usleep 250000] }

/-! ## Capture -/

/-- Outcome of `Capture`: `cpu` and `cuda` are the values written through the two output
arguments (`none` when nothing was written). -/
structure CaptureResult where
  state : gstPipeline
  ret : Bool
  cpu : Option Ptr
  cuda : Option Ptr
  calls : List Call

/-- `gstPipeline::Capture`. `cpu` and `cuda` tell whether the output arguments are non-NULL,
`engine` is the answer to the implicit `Open`, `signalled` the result of
`mWaitEvent.Wait(timeout)`. -/
def Capture (s : gstPipeline) (cpu cuda : Bool) (timeout : Nat)
    (engine : GstStateChangeReturn) (signalled : Bool) : CaptureResult :=
  let opened : OpenResult :=
    if !s.mStreaming then Open s engine else { state := s, ret := true, calls := [] }
  if !opened.ret then
    { state := opened.state, ret := false, cpu := none, cuda := none, calls := opened.calls }
  else if !signalled then
    { state := opened.state, ret := false, cpu := none, cuda := none,
      calls := opened.calls ++ [Call.wait timeout] }
  else
    let latest := opened.state.mLatestRingbuffer
    let retrieved := opened.state.mLatestRetrieved
    let s2 : gstPipeline := { opened.state with mLatestRetrieved := true }
    if retrieved then
      { state := s2, ret := false, cpu := none, cuda := none,
        calls := opened.calls ++ [Call.wait timeout] }
    else
      { state := s2, ret := true,
        cpu := if cpu then some (s2.mRingbufferCPU latest) else none,
        cuda := if cuda then some (s2.mRingbufferGPU latest) else none,
        calls := opened.calls ++ [Call.wait timeout] }

/-! ## Ingest of a raw buffer -/

/-- Outcome of `checkBuffer`: state and requests made. -/
structure CheckResult where
  state : gstPipeline
  calls : List Call

/-- The raw pool while `checkBuffer` allocates it: the two pointer arrays, the sizes of the
mapped allocations and the requests made. -/
structure RawPool where
  cpu : Nat → Ptr
  gpu : Nat → Ptr
  hostSize : Ptr → Nat
  calls : List Call

/-- The allocation loop of `checkBuffer` over the slots `ns`: a failed `cudaAllocMapped` is
logged and the loop goes on; a successful one stores the two pointers of a mapped block of
`size` bytes. -/
def allocRingbuffers (alloc : Nat → Option (Ptr × Ptr)) (size : Nat) :
    List Nat → RawPool → RawPool
  | [], pool => pool
  | n :: ns, pool =>
    match alloc n with
    | some (c, g) =>
      allocRingbuffers alloc size ns
        { cpu := Function.update pool.cpu n c
          gpu := Function.update pool.gpu n g
          hostSize := Function.update pool.hostSize c size
          calls := pool.calls ++ [Call.cudaAllocMapped size] }
    | none =>
      allocRingbuffers alloc size ns
        { pool with calls := pool.calls ++ [Call.cudaAllocMapped size] }

/-- Second half of `checkBuffer` (from `mWidth = width` on), reached once the sample has a
mapped buffer and caps with `width >= 1` and `height >= 1`. The result is `none` where the
source has no outcome: the division of line 331 by a `width * height` that is 0 as a 32-bit
value, and the `memcpy` of line 352 into a NULL slot or into a block smaller than the
buffer. -/
def publish (s : gstPipeline) (map : GstMapInfo) (width height : Int)
    (alloc : Nat → Option (Ptr × Ptr)) : Option CheckResult :=
  let gstSize := map.size % UINT32_RANGE
  let pixels := ((width * height) % (UINT32_RANGE : Int)).toNat
  if pixels = 0 then none
  else
    let s1 : gstPipeline :=
      { s with
        mWidth := (width % (UINT32_RANGE : Int)).toNat
        mHeight := (height % (UINT32_RANGE : Int)).toNat
        mDepth := ((gstSize * 8) % UINT32_RANGE) / pixels
        mSize := gstSize }
    let pool : RawPool :=
      if s1.mRingbufferCPU 0 = 0 then
        allocRingbuffers alloc gstSize (List.range NUM_RINGBUFFERS)
          { cpu := s1.mRingbufferCPU, gpu := s1.mRingbufferGPU, hostSize := s1.hostSize,
            calls := [] }
      else
        { cpu := s1.mRingbufferCPU, gpu := s1.mRingbufferGPU, hostSize := s1.hostSize,
          calls := [] }
    let s2 : gstPipeline :=
      { s1 with mRingbufferCPU := pool.cpu, mRingbufferGPU := pool.gpu,
                hostSize := pool.hostSize }
    let nextRingbuffer := ((s2.mLatestRingbuffer + 1) % UINT32_RANGE) % NUM_RINGBUFFERS
    let dst := s2.mRingbufferCPU nextRingbuffer
    if dst = 0 ∨ s2.hostSize dst < gstSize then none
    else
      let s3 : gstPipeline := { s2 with hostMem := Function.update s2.hostMem dst map.frame }
      some
        { state := { s3 with mLatestRingbuffer := nextRingbuffer, mLatestRetrieved := false }
          calls := pool.calls ++
            [Call.memcpy dst map.data gstSize, Call.bufferUnmap, Call.sampleUnref,
             Call.wake] }

/-- `gstPipeline::checkBuffer`; `pulled` is the answer of `gst_app_sink_pull_sample` and
`alloc` the answers of `cudaAllocMapped` should the raw pool be allocated. `none`: the call
has no outcome (see `publish`). -/
def checkBuffer (s : gstPipeline) (pulled : Option GstSample)
    (alloc : Nat → Option (Ptr × Ptr)) : Option CheckResult :=
  if s.mAppSink = 0 then some { state := s, calls := [] }
  else
    match pulled with
    | none => some { state := s, calls := [] }
    | some gstSample =>
      match gstSample.buffer with
      | none => some { state := s, calls := [] }
      | some gstBuffer =>
        match gstBuffer.map with
        | none => some { state := s, calls := [] }
        | some map =>
          if map.data = 0 then some { state := s, calls := [Call.sampleUnref] }
          else
            match gstSample.caps with
            | none => some { state := s, calls := [Call.sampleUnref] }
            | some gstCaps =>
              match gstCaps.structure0 with
              | none => some { state := s, calls := [Call.sampleUnref] }
              | some gstCapsStruct =>
                match gstCapsStruct.width, gstCapsStruct.height with
                | some width, some height =>
                  if width < 1 ∨ height < 1 then
                    some { state := s, calls := [Call.sampleUnref] }
                  else publish s map width height alloc
                | _, _ => some { state := s, calls := [Call.sampleUnref] }

/-! ## Conversion to RGBA -/

/-- The deallocation loop of `ConvertRGBA` over the slots `ns`; `mode` is `mRGBAZeroCopy`. -/
def freeRGBA (mode : Bool) : List Nat → (Nat → Ptr) → List Call → (Nat → Ptr) × List Call
  | [], rgba, calls => (rgba, calls)
  | n :: ns, rgba, calls =>
    if rgba n ≠ 0 then
      freeRGBA mode ns (Function.update rgba n 0)
        (calls ++ [if mode then Call.cudaFreeHost (rgba n) else Call.cudaFree (rgba n)])
    else freeRGBA mode ns rgba calls

/-- The allocation loop of `ConvertRGBA` over the slots `ns`; the first component tells
whether the loop ran to its end (`false`: the function returned `false` from inside). -/
def allocRGBA (zeroCopy : Bool) (size : Nat) (env : CudaEnv) :
    List Nat → (Nat → Ptr) → List Call → Bool × (Nat → Ptr) × List Call
  | [], rgba, calls => (true, rgba, calls)
  | n :: ns, rgba, calls =>
    if zeroCopy then
      match env.allocMapped n with
      | none => (false, rgba, calls ++ [Call.cudaAllocMapped size])
      | some (cpuPtr, gpuPtr) =>
        if cpuPtr ≠ gpuPtr then (false, rgba, calls ++ [Call.cudaAllocMapped size])
        else
          allocRGBA zeroCopy size env ns (Function.update rgba n gpuPtr)
            (calls ++ [Call.cudaAllocMapped size])
    else
      match env.malloc n with
      | none => (false, rgba, calls ++ [Call.cudaMalloc size])
      | some p =>
        allocRGBA zeroCopy size env ns (Function.update rgba n p)
          (calls ++ [Call.cudaMalloc size])

/-- Outcome of `ConvertRGBA` and `CaptureRGBA`: `output` is the value written through the
output argument (`none` when nothing was written). -/
structure ConvertResult where
  state : gstPipeline
  ret : Bool
  output : Option Ptr
  calls : List Call

/-- First block of `ConvertRGBA`: free the pool when it was allocated with the other
`zeroCopy` option. -/
def releaseOnModeChange (s : gstPipeline) (zeroCopy : Bool) : gstPipeline × List Call :=
  if s.mRGBA 0 ≠ 0 ∧ zeroCopy ≠ s.mRGBAZeroCopy then
    let freed := freeRGBA s.mRGBAZeroCopy (List.range NUM_RINGBUFFERS) s.mRGBA []
    ({ s with mRGBA := freed.1, mRGBAZeroCopy := false }, freed.2)
  else (s, [])

/-- Last block of `ConvertRGBA`: kernel selection on `mDepth`, output and index update. -/
def dispatch (s : gstPipeline) (input : Ptr) (env : CudaEnv) (calls : List Call) :
    ConvertResult :=
  let dst := s.mRGBA s.mLatestRGBA
  if s.mDepth = 12 then
    if !env.kernelOk then
      { state := s, ret := false, output := none
        calls := calls ++ [Call.cudaNV12ToRGBA32 input dst s.mWidth s.mHeight] }
    else
      { state := { s with mLatestRGBA := ((s.mLatestRGBA + 1) % UINT32_RANGE) % NUM_RINGBUFFERS }
        ret := true, output := some dst
        calls := calls ++ [Call.cudaNV12ToRGBA32 input dst s.mWidth s.mHeight] }
  else
    if !env.kernelOk then
      { state := s, ret := false, output := none
        calls := calls ++ [Call.cudaRGB8ToRGBA32 input dst s.mWidth s.mHeight] }
    else
      { state := { s with mLatestRGBA := ((s.mLatestRGBA + 1) % UINT32_RANGE) % NUM_RINGBUFFERS }
        ret := true, output := some dst
        calls := calls ++ [Call.cudaRGB8ToRGBA32 input dst s.mWidth s.mHeight] }

/-- `gstPipeline::ConvertRGBA`. `output` tells whether the output argument is non-NULL. -/
def ConvertRGBA (s : gstPipeline) (input : Ptr) (output : Bool) (zeroCopy : Bool)
    (env : CudaEnv) : ConvertResult :=
  if input = 0 ∨ output = false then
    { state := s, ret := false, output := none, calls := [] }
  else
    let released := releaseOnModeChange s zeroCopy
    let s1 := released.1
    if s1.mRGBA 0 = 0 then
      let size := ((s1.mWidth * s1.mHeight) % UINT32_RANGE) * SIZEOF_FLOAT4
      let allocated := allocRGBA zeroCopy size env (List.range NUM_RINGBUFFERS) s1.mRGBA []
      if !allocated.1 then
        { state := { s1 with mRGBA := allocated.2.1 }, ret := false, output := none
          calls := released.2 ++ allocated.2.2 }
      else
        dispatch { s1 with mRGBA := allocated.2.1, mRGBAZeroCopy := zeroCopy } input env
          (released.2 ++ allocated.2.2)
    else dispatch s1 input env released.2

/-- `gstPipeline::CaptureRGBA`. -/
def CaptureRGBA (s : gstPipeline) (output : Bool) (timeout : Nat) (zeroCopy : Bool)
    (engine : GstStateChangeReturn) (signalled : Bool) (env : CudaEnv) : ConvertResult :=
  let captured := Capture s true true timeout engine signalled
  if !captured.ret then
    { state := captured.state, ret := false, output := none, calls := captured.calls }
  else
    let gpu := captured.cuda.getD 0
    let converted := ConvertRGBA captured.state gpu output zeroCopy env
    { converted with calls := captured.calls ++ converted.calls }

/-! ## Sequences of operations -/

/-- A raw buffer handed to `checkBuffer` with complete metadata, and the answers of
`cudaAllocMapped` during that call. -/
structure RawFrame where
  map : GstMapInfo
  width : Int
  height : Int
  alloc : Nat → Option (Ptr × Ptr)

/-- The sample carrying the buffer and caps of a raw frame. -/
def RawFrame.sample (f : RawFrame) : GstSample :=
  { buffer := some { map := some f.map }
    caps := some { structure0 := some { width := some f.width, height := some f.height } } }

/-- A valid ingest: the data pointer is set, `width >= 1` and `height >= 1`. -/
def RawFrame.valid (f : RawFrame) : Prop :=
  f.map.data ≠ 0 ∧ 1 ≤ f.width ∧ 1 ≤ f.height

instance (f : RawFrame) : Decidable f.valid := by
  unfold RawFrame.valid; exact inferInstance

/-- The divisor of line 331: `width * height` as a 32-bit value. -/
def RawFrame.pixels (f : RawFrame) : Nat :=
  ((f.width * f.height) % (UINT32_RANGE : Int)).toNat

/-- The byte count of the buffer as the `uint32_t gstSize`. -/
def RawFrame.gstSize (f : RawFrame) : Nat :=
  f.map.size % UINT32_RANGE

/-- One `checkBuffer` call per frame of the list, in order, with no other call between;
`none` as soon as one of the calls has no outcome. -/
def ingestAll (s : gstPipeline) : List RawFrame → Option gstPipeline
  | [] => some s
  | f :: fs =>
    match checkBuffer s (some f.sample) f.alloc with
    | none => none
    | some r => ingestAll r.state fs

/-- Every raw slot holds a mapped block of at least `size` bytes. -/
def rawPoolReady (s : gstPipeline) (size : Nat) : Prop :=
  ∀ n, n < NUM_RINGBUFFERS →
    s.mRingbufferCPU n ≠ 0 ∧ size ≤ s.hostSize (s.mRingbufferCPU n)

/-- Every `cudaAllocMapped` of the raw pool succeeds with a non-NULL host pointer. -/
def allocatorReady (alloc : Nat → Option (Ptr × Ptr)) : Prop :=
  ∀ n, n < NUM_RINGBUFFERS → ∃ c g, alloc n = some (c, g) ∧ c ≠ 0

/-- The raw slot the next ingest copies into is allocated and holds `size` bytes: either the
pool is unallocated and the allocation of that slot succeeds, or the pool is allocated and
the slot has a block of at least `size` bytes. -/
def slotWritable (s : gstPipeline) (size : Nat) (alloc : Nat → Option (Ptr × Ptr)) : Prop :=
  if s.mRingbufferCPU 0 = 0 then
    ∃ c g, alloc ((s.mLatestRingbuffer + 1) % NUM_RINGBUFFERS) = some (c, g) ∧ c ≠ 0
  else
    s.mRingbufferCPU ((s.mLatestRingbuffer + 1) % NUM_RINGBUFFERS) ≠ 0 ∧
    size ≤ s.hostSize (s.mRingbufferCPU ((s.mLatestRingbuffer + 1) % NUM_RINGBUFFERS))

/-! ## Reading the list of requests -/

/-- Requests that release a converted slot. -/
def isFree : Call → Bool
  | Call.cudaFreeHost _ => true
  | Call.cudaFree _ => true
  | _ => false

/-- Requests that allocate a slot. -/
def isAlloc : Call → Bool
  | Call.cudaAllocMapped _ => true
  | Call.cudaMalloc _ => true
  | _ => false

/-- Invocations of a colour-conversion kernel. -/
def isKernel : Call → Bool
  | Call.cudaNV12ToRGBA32 _ _ _ _ => true
  | Call.cudaRGB8ToRGBA32 _ _ _ _ => true
  | _ => false

/-- The releases and allocations among the requests, in order. -/
def memoryCalls (calls : List Call) : List Call :=
  calls.filter (fun c => isFree c || isAlloc c)

/-- The kernel invocations among the requests, in order. -/
def kernelCalls (calls : List Call) : List Call :=
  calls.filter isKernel

/-- The deallocator that matches an allocation mode: `cudaFreeHost` for mapped memory,
`cudaFree` for device memory. -/
def freeCall (mode : Bool) (p : Ptr) : Call :=
  if mode then Call.cudaFreeHost p else Call.cudaFree p

/-- The allocator of an allocation mode. -/
def allocCall (zeroCopy : Bool) (size : Nat) : Call :=
  if zeroCopy then Call.cudaAllocMapped size else Call.cudaMalloc size

/-- Every slot of the converted pool holds a buffer. -/
def poolAllocated (s : gstPipeline) : Prop :=
  ∀ n, n < NUM_RINGBUFFERS → s.mRGBA n ≠ 0

instance (s : gstPipeline) : Decidable (poolAllocated s) := by
  unfold poolAllocated; exact inferInstance

/-- A successful allocation answers a non-NULL pointer. -/
def nonNull (env : CudaEnv) : Prop :=
  (∀ n c g, env.allocMapped n = some (c, g) → g ≠ 0) ∧ (∀ n p, env.malloc n = some p → p ≠ 0)

/-- One free/reallocate round from state `s` into mode `zeroCopy`: the sixteen slots released
with the deallocator of the mode of `s`, then sixteen allocations in the new mode. -/
def reallocationRound (s : gstPipeline) (zeroCopy : Bool) : List Call :=
  (List.range NUM_RINGBUFFERS).map (fun n => freeCall s.mRGBAZeroCopy (s.mRGBA n)) ++
  (List.range NUM_RINGBUFFERS).map
    (fun _ => allocCall zeroCopy (((s.mWidth * s.mHeight) % UINT32_RANGE) * SIZEOF_FLOAT4))

/-- One `ConvertRGBA` request: raw input, mode, and the answers of the CUDA layer. -/
structure Conversion where
  input : Ptr
  zeroCopy : Bool
  env : CudaEnv

/-- One executed request: the state before, the request, the outcome. -/
structure ConvertStep where
  before : gstPipeline
  request : Conversion
  result : ConvertResult

/-- Consecutive `ConvertRGBA` calls (non-NULL output argument), each from the state the
previous one left. -/
def convertAll (s : gstPipeline) : List Conversion → List ConvertStep
  | [] => []
  | c :: cs =>
    { before := s, request := c, result := ConvertRGBA s c.input true c.zeroCopy c.env } ::
      convertAll (ConvertRGBA s c.input true c.zeroCopy c.env).state cs

/-- Number of mode transitions in a sequence of requested modes, starting from `mode`. -/
def transitions (mode : Bool) : List Bool → Nat
  | [] => 0
  | z :: zs => (if z = mode then 0 else 1) + transitions z zs

/-- Destination buffer of a kernel invocation. -/
def kernelOutput : Call → Option Ptr
  | Call.cudaNV12ToRGBA32 _ output _ _ => some output
  | Call.cudaRGB8ToRGBA32 _ output _ _ => some output
  | _ => none

/-- Every slot allocation in mode `zeroCopy` would succeed (mapped memory with equal host and
device pointers). -/
def allocSucceeds (env : CudaEnv) (zeroCopy : Bool) : Prop :=
  ∀ n, n < NUM_RINGBUFFERS →
    if zeroCopy then ∃ p, env.allocMapped n = some (p, p) else ∃ p, env.malloc n = some p

/-! ## Accessors of `gstPipeline.h` and malformed caps -/

/-- `gstPipeline::GetWidth`. -/
def GetWidth (s : gstPipeline) : Nat := s.mWidth

/-- `gstPipeline::GetHeight`. -/
def GetHeight (s : gstPipeline) : Nat := s.mHeight

/-- `gstPipeline::GetPixelDepth`. -/
def GetPixelDepth (s : gstPipeline) : Nat := s.mDepth

/-- `gstPipeline::GetSize`. -/
def GetSize (s : gstPipeline) : Nat := s.mSize

/-- Caps without usable dimensions: the width or the height is missing, or the width or the
height is below 1. -/
def lacksUsableSize (st : GstStructure) : Prop :=
  st.width = none ∨ st.height = none ∨
    (∃ w, st.width = some w ∧ w < 1) ∨ (∃ h, st.height = some h ∧ h < 1)

/-- The allocations among the requests, in order. -/
def allocCalls (calls : List Call) : List Call :=
  calls.filter isAlloc

/-- The buffer that the allocation of slot `n` in mode `zeroCopy` puts into the slot when it
succeeds (mapped memory is accepted only with equal host and device pointers). -/
def slotAnswer (env : CudaEnv) (zeroCopy : Bool) (n : Nat) : Option Ptr :=
  if zeroCopy then
    match env.allocMapped n with
    | some (c, g) => if c = g then some g else none
    | none => none
  else env.malloc n

/-! ## Concrete inputs -/

/-- Allocator answering slot `n` with the address `base + n` for host and device. -/
def demoAlloc (base : Nat) : Nat → Option (Ptr × Ptr) :=
  fun n => some (base + n, base + n)

/-- The k-th 1280x720 NV12 buffer of 1382400 bytes. -/
def demoFrame (k : Nat) : RawFrame :=
  { map := { data := 4096, size := 1382400, frame := k }
    width := 1280, height := 720, alloc := demoAlloc 100 }

/-- The buffers number 1 to n. -/
def demoFrames (n : Nat) : List RawFrame :=
  (List.range n).map (fun k => demoFrame (k + 1))

/-- A pipeline created with the default resolution and depth. -/
def demoPipeline : gstPipeline := Create 1 1280 720 12

/-- The demo pipeline once opened. -/
def demoStreaming : gstPipeline := (Open demoPipeline GstStateChangeReturn.SUCCESS).state

/-- The opened demo pipeline after the first `n` buffers. -/
def demoAfter (n : Nat) : gstPipeline :=
  (ingestAll demoStreaming (demoFrames n)).getD demoStreaming

/-- The opened demo pipeline holding one published, unretrieved frame. -/
def demoPending : gstPipeline := demoAfter 1

/-- CUDA layer whose allocations succeed (slot `n` gets address `base + n`) and whose kernel
answers `kernelOk`. -/
def demoEnv (base : Nat) (kernelOk : Bool) : CudaEnv :=
  { allocMapped := fun n => some (base + n, base + n)
    malloc := fun n => some (base + n)
    kernelOk := kernelOk }

/-- CUDA layer whose allocations succeed for every slot but slot `k`. -/
def failingEnv (k : Nat) : CudaEnv :=
  { allocMapped := fun n => if n = k then none else some (500 + n, 500 + n)
    malloc := fun n => if n = k then none else some (500 + n)
    kernelOk := true }

/-- The demo pipeline after a first conversion in device-only mode: the converted pool is
allocated. -/
def demoConverted : gstPipeline :=
  (ConvertRGBA demoPipeline 8192 true false (demoEnv 500 true)).state

/-- Three requests: mapped, mapped again, device-only. -/
def demoConversions : List Conversion :=
  [{ input := 8192, zeroCopy := true, env := demoEnv 600 true },
   { input := 8192, zeroCopy := true, env := demoEnv 700 true },
   { input := 8192, zeroCopy := false, env := demoEnv 800 true }]

/-- Seventeen device-mode requests, one more than there are slots. -/
def demoRequests : List Conversion :=
  List.replicate 17 { input := 8192, zeroCopy := false, env := demoEnv 900 true }

/-- A sample with a mapped buffer whose caps carry a width but no height. -/
def demoMalformed : GstSample :=
  { buffer := some { map := some { data := 4096, size := 1382400, frame := 9 } }
    caps := some { structure0 := some { width := some 1280, height := none } } }

/-- A pipeline created for 65536 x 65536 frames. -/
def demoHuge : gstPipeline := Create 1 65536 65536 12

end gstPipeline

end GstPipeline

/-! # Theorems -/

namespace GstPipeline

namespace gstPipeline

theorem uint32_succ_mod (r : Nat) :
    ((r + 1) % UINT32_RANGE) % NUM_RINGBUFFERS = (r + 1) % NUM_RINGBUFFERS := by
  unfold UINT32_RANGE NUM_RINGBUFFERS
  exact Nat.mod_mod_of_dvd _ (by norm_num)

theorem checkBuffer_valid (s : gstPipeline) (f : RawFrame) (hs : s.mAppSink ≠ 0)
    (hf : f.valid) :
    checkBuffer s (some f.sample) f.alloc = publish s f.map f.width f.height f.alloc := by
  obtain ⟨hd, hw, hh⟩ := hf
  have hw' : ¬ f.width < 1 := by omega
  have hh' : ¬ f.height < 1 := by omega
  simp [checkBuffer, RawFrame.sample, hs, hd, hw', hh']

theorem publish_some (s : gstPipeline) (map : GstMapInfo) (w h : Int)
    (alloc : Nat → Option (Ptr × Ptr)) (r : CheckResult)
    (hr : publish s map w h alloc = some r) :
    r.state.mLatestRingbuffer = (s.mLatestRingbuffer + 1) % NUM_RINGBUFFERS ∧
    r.state.mLatestRetrieved = false ∧
    r.state.mStreaming = s.mStreaming ∧
    r.state.mAppSink = s.mAppSink ∧
    r.state.mLatestRGBA = s.mLatestRGBA ∧
    r.state.hostMem (r.state.mRingbufferCPU r.state.mLatestRingbuffer) = map.frame ∧
    Call.memcpy (r.state.mRingbufferCPU r.state.mLatestRingbuffer) map.data
      (map.size % UINT32_RANGE) ∈ r.calls ∧
    Call.wake ∈ r.calls := by
  unfold publish at hr
  simp only at hr
  split_ifs at hr
  all_goals
    simp only [Option.some.injEq] at hr
    subst hr
    simp [uint32_succ_mod]

/-! ## The allocation loop of `checkBuffer` -/

theorem allocRingbuffers_hostSize (alloc : Nat → Option (Ptr × Ptr)) (size : Nat)
    (ns : List Nat) :
    ∀ (pool : RawPool) (q : Ptr), pool.hostSize q = size →
      (allocRingbuffers alloc size ns pool).hostSize q = size := by
  induction ns with
  | nil => intro pool q hq; exact hq
  | cons n ns ih =>
    intro pool q hq
    rw [allocRingbuffers]
    cases hm : alloc n with
    | none => exact ih _ q hq
    | some pr =>
      obtain ⟨c, g⟩ := pr
      apply ih
      by_cases hqc : q = c
      · subst hqc; simp
      · simp [Function.update, hqc, hq]

theorem allocRingbuffers_cpu (alloc : Nat → Option (Ptr × Ptr)) (size : Nat)
    (ns : List Nat) :
    ∀ (pool : RawPool) (n : Nat), n ∉ ns →
      (allocRingbuffers alloc size ns pool).cpu n = pool.cpu n := by
  induction ns with
  | nil => intro pool n _; rfl
  | cons m ns ih =>
    intro pool n hn
    have hnm : n ≠ m := fun h => hn (h ▸ List.mem_cons_self m ns)
    have hns : n ∉ ns := fun h => hn (List.mem_cons_of_mem m h)
    rw [allocRingbuffers]
    cases hm : alloc m with
    | none => exact ih _ n hns
    | some pr =>
      obtain ⟨c, g⟩ := pr
      simp only
      rw [ih _ n hns]
      simp [Function.update, hnm]

theorem allocRingbuffers_slot (alloc : Nat → Option (Ptr × Ptr)) (size : Nat)
    (ns : List Nat) :
    ∀ (pool : RawPool) (n : Nat) (c g : Ptr), n ∈ ns → ns.Nodup → alloc n = some (c, g) →
      (allocRingbuffers alloc size ns pool).cpu n = c ∧
      (allocRingbuffers alloc size ns pool).hostSize c = size := by
  induction ns with
  | nil => intro pool n c g hn; simp at hn
  | cons m ns ih =>
    intro pool n c g hn hnd ha
    obtain ⟨hmn, hnd'⟩ := List.nodup_cons.mp hnd
    rcases List.mem_cons.mp hn with h | h
    · subst h
      rw [allocRingbuffers, ha]
      simp only
      rw [allocRingbuffers_cpu alloc size ns _ n hmn]
      refine ⟨by simp, ?_⟩
      apply allocRingbuffers_hostSize
      simp
    · rw [allocRingbuffers]
      cases hm : alloc m with
      | none => exact ih _ n c g h hnd' ha
      | some pr =>
        obtain ⟨c', g'⟩ := pr
        exact ih _ n c g h hnd' ha

/-! ## When an ingest has an outcome -/

theorem publish_returns (s : gstPipeline) (map : GstMapInfo) (w h : Int)
    (alloc : Nat → Option (Ptr × Ptr))
    (hpix : ((w * h) % (UINT32_RANGE : Int)).toNat ≠ 0)
    (hslot : slotWritable s (map.size % UINT32_RANGE) alloc) :
    ∃ r, publish s map w h alloc = some r := by
  unfold slotWritable at hslot
  unfold publish
  simp only [hpix, if_false, uint32_succ_mod]
  by_cases h0 : s.mRingbufferCPU 0 = 0
  · rw [if_pos h0] at hslot
    obtain ⟨c, g, ha, hc⟩ := hslot
    obtain ⟨k1, k2⟩ := allocRingbuffers_slot alloc (map.size % UINT32_RANGE)
      (List.range NUM_RINGBUFFERS)
      { cpu := s.mRingbufferCPU, gpu := s.mRingbufferGPU, hostSize := s.hostSize, calls := [] }
      ((s.mLatestRingbuffer + 1) % NUM_RINGBUFFERS) c g
      (List.mem_range.mpr (Nat.mod_lt _ (by decide))) (List.nodup_range _) ha
    simp only [h0, if_true]
    rw [if_neg]
    · exact ⟨_, rfl⟩
    · rw [k1, k2]
      intro hcon
      rcases hcon with hcon | hcon
      · exact hc hcon
      · exact Nat.lt_irrefl _ hcon
  · rw [if_neg h0] at hslot
    simp only [h0, if_false]
    rw [if_neg]
    · exact ⟨_, rfl⟩
    · intro hcon
      rcases hcon with hcon | hcon
      · exact hslot.1 hcon
      · exact Nat.lt_irrefl _ (Nat.lt_of_lt_of_le hcon hslot.2)

theorem publish_ready (s : gstPipeline) (map : GstMapInfo) (w h : Int)
    (alloc : Nat → Option (Ptr × Ptr)) (r : CheckResult) (size : Nat)
    (hr : publish s map w h alloc = some r)
    (hpool : rawPoolReady s size ∨
      (s.mRingbufferCPU 0 = 0 ∧ allocatorReady alloc ∧ map.size % UINT32_RANGE = size)) :
    rawPoolReady r.state size := by
  unfold publish at hr
  simp only at hr
  split_ifs at hr with h1 h2 h3 h3
  · simp only [Option.some.injEq] at hr
    subst hr
    rcases hpool with hp | ⟨_, ha, hsz⟩
    · exact absurd h2 (hp 0 (by decide)).1
    · intro n hn
      obtain ⟨c, g, hcg, hc⟩ := ha n hn
      obtain ⟨k1, k2⟩ := allocRingbuffers_slot alloc (map.size % UINT32_RANGE)
        (List.range NUM_RINGBUFFERS)
        { cpu := s.mRingbufferCPU, gpu := s.mRingbufferGPU, hostSize := s.hostSize,
          calls := [] } n c g (List.mem_range.mpr hn) (List.nodup_range _) hcg
      simp only
      rw [k1, k2, hsz]
      exact ⟨hc, Nat.le_refl _⟩
  · simp only [Option.some.injEq] at hr
    subst hr
    rcases hpool with hp | ⟨h0, _, _⟩
    · exact hp
    · exact absurd h0 h2

theorem slotWritable_of_pool (s : gstPipeline) (size : Nat) (alloc : Nat → Option (Ptr × Ptr))
    (hpool : rawPoolReady s size ∨ (s.mRingbufferCPU 0 = 0 ∧ allocatorReady alloc)) :
    slotWritable s size alloc := by
  unfold slotWritable
  rcases hpool with hp | ⟨h0, ha⟩
  · rw [if_neg (hp 0 (by decide)).1]
    exact hp _ (Nat.mod_lt _ (by decide))
  · rw [if_pos h0]
    exact ha _ (Nat.mod_lt _ (by decide))

theorem capture_delivers (t : gstPipeline) (timeout : Nat) (engine : GstStateChangeReturn)
    (hopen : t.mStreaming = true ∨ engine = GstStateChangeReturn.SUCCESS
      ∨ engine = GstStateChangeReturn.ASYNC)
    (hret : t.mLatestRetrieved = false) :
    (Capture t true true timeout engine true).ret = true ∧
    (Capture t true true timeout engine true).cpu
      = some (t.mRingbufferCPU t.mLatestRingbuffer) ∧
    (Capture t true true timeout engine true).cuda
      = some (t.mRingbufferGPU t.mLatestRingbuffer) ∧
    (Capture t true true timeout engine true).state.mLatestRetrieved = true ∧
    (Capture t true true timeout engine true).state.mLatestRingbuffer = t.mLatestRingbuffer ∧
    (Capture t true true timeout engine true).state.mStreaming = true := by
  cases hstr : t.mStreaming <;> cases engine <;>
    simp_all [Capture, Open]

theorem ingest_step (s : gstPipeline) (f : RawFrame) (size : Nat) (hs : s.mAppSink ≠ 0)
    (hf : f.valid ∧ f.pixels ≠ 0 ∧ f.gstSize = size)
    (hpool : rawPoolReady s size ∨ (s.mRingbufferCPU 0 = 0 ∧ allocatorReady f.alloc)) :
    ∃ r, checkBuffer s (some f.sample) f.alloc = some r ∧
      rawPoolReady r.state size ∧
      r.state.mLatestRingbuffer = (s.mLatestRingbuffer + 1) % NUM_RINGBUFFERS ∧
      r.state.mLatestRetrieved = false ∧
      r.state.mStreaming = s.mStreaming ∧
      r.state.mAppSink = s.mAppSink ∧
      r.state.hostMem (r.state.mRingbufferCPU r.state.mLatestRingbuffer) = f.map.frame := by
  obtain ⟨hv, hpix, hsz⟩ := hf
  have hslot : slotWritable s (f.map.size % UINT32_RANGE) f.alloc := by
    have := slotWritable_of_pool s size f.alloc hpool
    rw [← hsz] at this
    exact this
  obtain ⟨r, hr⟩ := publish_returns s f.map f.width f.height f.alloc hpix hslot
  obtain ⟨p1, p2, p3, p4, _, p6, _, _⟩ := publish_some s f.map f.width f.height f.alloc r hr
  have hready : rawPoolReady r.state size := by
    apply publish_ready s f.map f.width f.height f.alloc r size hr
    rcases hpool with hp | ⟨h0, ha⟩
    · exact Or.inl hp
    · exact Or.inr ⟨h0, ha, hsz⟩
  exact ⟨r, by rw [checkBuffer_valid s f hs hv, hr], hready, p1, p2, p3, p4, p6⟩

theorem ingestAll_run (size : Nat) (fs : List RawFrame) :
    ∀ (s : gstPipeline) (f : RawFrame), s.mAppSink ≠ 0 →
      (∀ g ∈ f :: fs, g.valid ∧ g.pixels ≠ 0 ∧ g.gstSize = size) →
      (rawPoolReady s size ∨
        (s.mRingbufferCPU 0 = 0 ∧ ∀ g ∈ f :: fs, allocatorReady g.alloc)) →
      ∃ t, ingestAll s (f :: fs) = some t ∧
        t.mLatestRingbuffer = (s.mLatestRingbuffer + (fs.length + 1)) % NUM_RINGBUFFERS ∧
        t.mLatestRetrieved = false ∧
        t.mStreaming = s.mStreaming ∧
        t.hostMem (t.mRingbufferCPU t.mLatestRingbuffer)
          = ((f :: fs).getLast (List.cons_ne_nil f fs)).map.frame := by
  induction fs with
  | nil =>
    intro s f hs hv hpool
    have hpool' : rawPoolReady s size ∨ (s.mRingbufferCPU 0 = 0 ∧ allocatorReady f.alloc) := by
      rcases hpool with hp | ⟨h0, ha⟩
      · exact Or.inl hp
      · exact Or.inr ⟨h0, ha f (List.mem_cons_self f [])⟩
    obtain ⟨r, hr, _, q1, q2, q3, _, q5⟩ :=
      ingest_step s f size hs (hv f (List.mem_cons_self f [])) hpool'
    refine ⟨r.state, by simp [ingestAll, hr], q1, q2, q3, ?_⟩
    simpa using q5
  | cons g gs ih =>
    intro s f hs hv hpool
    have hpool' : rawPoolReady s size ∨ (s.mRingbufferCPU 0 = 0 ∧ allocatorReady f.alloc) := by
      rcases hpool with hp | ⟨h0, ha⟩
      · exact Or.inl hp
      · exact Or.inr ⟨h0, ha f (List.mem_cons_self f _)⟩
    obtain ⟨r, hr, q0, q1, q2, q3, q4, _⟩ :=
      ingest_step s f size hs (hv f (List.mem_cons_self f _)) hpool'
    have hs1 : r.state.mAppSink ≠ 0 := by rw [q4]; exact hs
    obtain ⟨t, i0, i1, i2, i3, i4⟩ := ih r.state g hs1
      (fun x hx => hv x (List.mem_cons_of_mem f hx)) (Or.inl q0)
    refine ⟨t, ?_, ?_, i2, by rw [i3, q3], ?_⟩
    · rw [ingestAll, hr]; exact i0
    · rw [i1, q1]
      simp only [List.length_cons, NUM_RINGBUFFERS]
      omega
    · rw [i4]
      simp [List.getLast_cons]

/-- C1 (as stated, refuted). At N = 17 the slot handed out is a slot that an earlier ingest
wrote: from latest index 0, ingest 1 copies into slot 1 (address 101), and after seventeen
ingests the signalled Capture hands out that same slot 1. -/
theorem capture_after_wrap_reuses_slot :
    demoStreaming.mLatestRingbuffer = 0 ∧
    (ingestAll demoStreaming (demoFrames 1)).isSome = true ∧
    (demoAfter 1).mLatestRingbuffer = 1 ∧
    (demoAfter 1).mRingbufferCPU 1 = 101 ∧
    (checkBuffer demoStreaming (some (demoFrame 1).sample) (demoFrame 1).alloc).map
        (fun r => decide (Call.memcpy 101 4096 1382400 ∈ r.calls)) = some true ∧
    (ingestAll demoStreaming (demoFrames 17)).isSome = true ∧
    (demoAfter 17).mLatestRingbuffer = 1 ∧
    (Capture (demoAfter 17) true true 1000 GstStateChangeReturn.SUCCESS true).ret = true ∧
    (Capture (demoAfter 17) true true 1000 GstStateChangeReturn.SUCCESS true).cpu
      = some 101 := by
  decide

/-- C1 (amended). Let the raw pool hold blocks of at least the buffer size in every slot, or
be unallocated with every allocation of the pool succeeding. After N >= 1 valid ingests of
buffers of that size (width x height not 0 as a 32-bit value) from latest raw index r, with
no Capture in between, the ingests have an outcome and a Capture that reaches its wait and
is signalled returns true and hands out the host and device pointers of raw slot
(r + N) mod 16, whose host buffer holds the frame of the N-th ingest. Ingest j < N wrote
slot (r + j) mod 16, which is the slot handed out exactly when 16 divides N - j. -/
theorem capture_after_ingests_delivers_last (s : gstPipeline) (fs : List RawFrame)
    (size timeout : Nat) (engine : GstStateChangeReturn)
    (hne : fs ≠ []) (hs : s.mAppSink ≠ 0)
    (hv : ∀ f ∈ fs, f.valid ∧ f.pixels ≠ 0 ∧ f.gstSize = size)
    (hpool : rawPoolReady s size ∨
      (s.mRingbufferCPU 0 = 0 ∧ ∀ f ∈ fs, allocatorReady f.alloc))
    (hopen : s.mStreaming = true ∨ engine = GstStateChangeReturn.SUCCESS
      ∨ engine = GstStateChangeReturn.ASYNC) :
    ∃ t, ingestAll s fs = some t ∧
      (Capture t true true timeout engine true).ret = true ∧
      (Capture t true true timeout engine true).cpu
        = some (t.mRingbufferCPU ((s.mLatestRingbuffer + fs.length) % NUM_RINGBUFFERS)) ∧
      (Capture t true true timeout engine true).cuda
        = some (t.mRingbufferGPU ((s.mLatestRingbuffer + fs.length) % NUM_RINGBUFFERS)) ∧
      t.hostMem (t.mRingbufferCPU ((s.mLatestRingbuffer + fs.length) % NUM_RINGBUFFERS))
        = (fs.getLast hne).map.frame ∧
      ∀ j, 1 ≤ j → j < fs.length →
        ∃ u, ingestAll s (fs.take j) = some u ∧
          u.mLatestRingbuffer = (s.mLatestRingbuffer + j) % NUM_RINGBUFFERS ∧
          (u.mLatestRingbuffer = (s.mLatestRingbuffer + fs.length) % NUM_RINGBUFFERS
            ↔ NUM_RINGBUFFERS ∣ fs.length - j) := by
  cases fs with
  | nil => exact absurd rfl hne
  | cons f gs =>
    obtain ⟨t, h0, h1, h2, h3, h4⟩ := ingestAll_run size gs s f hs hv hpool
    have hlen : (f :: gs).length = gs.length + 1 := List.length_cons f gs
    rw [hlen]
    rw [h1] at h4
    have hopen' : t.mStreaming = true
        ∨ engine = GstStateChangeReturn.SUCCESS ∨ engine = GstStateChangeReturn.ASYNC := by
      rw [h3]; exact hopen
    obtain ⟨c1, c2, c3, _⟩ := capture_delivers t timeout engine hopen' h2
    rw [h1] at c2 c3
    refine ⟨t, h0, c1, c2, c3, h4, ?_⟩
    intro j hj1 hj2
    obtain ⟨j', rfl⟩ : ∃ j', j = j' + 1 := ⟨j - 1, by omega⟩
    have hj' : j' ≤ gs.length := by omega
    have hv' : ∀ g ∈ f :: gs.take j', g.valid ∧ g.pixels ≠ 0 ∧ g.gstSize = size := by
      intro g hg
      rcases List.mem_cons.mp hg with h | h
      · exact hv g (h ▸ List.mem_cons_self f gs)
      · exact hv g (List.mem_cons_of_mem f (List.mem_of_mem_take h))
    have hpool' : rawPoolReady s size ∨
        (s.mRingbufferCPU 0 = 0 ∧ ∀ g ∈ f :: gs.take j', allocatorReady g.alloc) := by
      rcases hpool with hp | ⟨hz, ha⟩
      · exact Or.inl hp
      · refine Or.inr ⟨hz, ?_⟩
        intro g hg
        rcases List.mem_cons.mp hg with h | h
        · exact ha g (h ▸ List.mem_cons_self f gs)
        · exact ha g (List.mem_cons_of_mem f (List.mem_of_mem_take h))
    obtain ⟨u, u0, u1, _⟩ := ingestAll_run size (gs.take j') s f hs hv' hpool'
    have hlt : (gs.take j').length = j' := by
      rw [List.length_take]; exact Nat.min_eq_left hj'
    rw [hlt] at u1
    refine ⟨u, by rw [List.take_succ_cons]; exact u0, u1, ?_⟩
    rw [u1]
    simp only [NUM_RINGBUFFERS]
    omega

theorem demoFrames_allocatorReady (n : Nat) : ∀ f ∈ demoFrames n, allocatorReady f.alloc := by
  intro f hf
  simp only [demoFrames, List.mem_map] at hf
  obtain ⟨k, _, rfl⟩ := hf
  intro m _
  exact ⟨100 + m, 100 + m, rfl,
    Nat.ne_of_gt (Nat.lt_of_lt_of_le (by decide) (Nat.le_add_right 100 m))⟩

theorem capture_after_ingests_delivers_last_witness :
    ∃ t, ingestAll demoStreaming (demoFrames 17) = some t ∧
      (Capture t true true 1000 GstStateChangeReturn.SUCCESS true).ret = true ∧
      (Capture t true true 1000 GstStateChangeReturn.SUCCESS true).cpu
        = some (t.mRingbufferCPU ((demoStreaming.mLatestRingbuffer + 17) % NUM_RINGBUFFERS)) ∧
      t.hostMem (t.mRingbufferCPU ((demoStreaming.mLatestRingbuffer + 17) % NUM_RINGBUFFERS))
        = 17 := by
  obtain ⟨t, h0, h1, h2, _, h4, _⟩ :=
    capture_after_ingests_delivers_last demoStreaming (demoFrames 17) 1382400 1000
      GstStateChangeReturn.SUCCESS (by simp [demoFrames]) (by decide) (by decide)
      (Or.inr ⟨by decide, demoFrames_allocatorReady 17⟩) (Or.inl (by decide))
  exact ⟨t, h0, h1, h2, h4.trans (by decide)⟩

theorem capture_after_delivery_fails (t : gstPipeline) (cpu cuda : Bool) (timeout : Nat)
    (engine : GstStateChangeReturn) (signalled : Bool)
    (hstr : t.mStreaming = true) (hret : t.mLatestRetrieved = true) :
    (Capture t cpu cuda timeout engine signalled).ret = false ∧
    (Capture t cpu cuda timeout engine signalled).cpu = none ∧
    (Capture t cpu cuda timeout engine signalled).cuda = none := by
  cases signalled <;> simp [Capture, hstr, hret]

/-- C2. From a streaming state holding one published, unretrieved frame, a Capture whose wait
is signalled returns true, and the Capture that follows it with no ingest in between returns
false and writes no pointer, whether its wait times out or is signalled. -/
theorem capture_twice_delivers_once (s : gstPipeline) (cpu1 cuda1 cpu2 cuda2 : Bool)
    (timeout1 timeout2 : Nat) (engine1 engine2 : GstStateChangeReturn) (signalled2 : Bool)
    (hstr : s.mStreaming = true) (hret : s.mLatestRetrieved = false) :
    (Capture s cpu1 cuda1 timeout1 engine1 true).ret = true ∧
    (Capture (Capture s cpu1 cuda1 timeout1 engine1 true).state cpu2 cuda2 timeout2 engine2
        signalled2).ret = false ∧
    (Capture (Capture s cpu1 cuda1 timeout1 engine1 true).state cpu2 cuda2 timeout2 engine2
        signalled2).cpu = none ∧
    (Capture (Capture s cpu1 cuda1 timeout1 engine1 true).state cpu2 cuda2 timeout2 engine2
        signalled2).cuda = none := by
  have h1 : (Capture s cpu1 cuda1 timeout1 engine1 true).ret = true := by
    simp [Capture, hstr, hret]
  have h2 : (Capture s cpu1 cuda1 timeout1 engine1 true).state.mStreaming = true := by
    simp [Capture, hstr, hret]
  have h3 : (Capture s cpu1 cuda1 timeout1 engine1 true).state.mLatestRetrieved = true := by
    simp [Capture, hstr, hret]
  exact ⟨h1, capture_after_delivery_fails _ cpu2 cuda2 timeout2 engine2 signalled2 h2 h3⟩

theorem capture_twice_delivers_once_witness :
    demoPending.mStreaming = true ∧ demoPending.mLatestRetrieved = false ∧
    (Capture demoPending true true 1000 GstStateChangeReturn.SUCCESS true).ret = true ∧
    (Capture (Capture demoPending true true 1000 GstStateChangeReturn.SUCCESS true).state
        true true 1000 GstStateChangeReturn.SUCCESS true).ret = false :=
  ⟨by decide, by decide,
    (capture_twice_delivers_once demoPending true true true true 1000 1000
      GstStateChangeReturn.SUCCESS GstStateChangeReturn.SUCCESS true
      (by decide) (by decide)).1,
    (capture_twice_delivers_once demoPending true true true true 1000 1000
      GstStateChangeReturn.SUCCESS GstStateChangeReturn.SUCCESS true
      (by decide) (by decide)).2.1⟩

theorem convertRGBA_frame (s : gstPipeline) (input : Ptr) (output zeroCopy : Bool)
    (env : CudaEnv) :
    (ConvertRGBA s input output zeroCopy env).state.mStreaming = s.mStreaming ∧
    (ConvertRGBA s input output zeroCopy env).state.mLatestRingbuffer = s.mLatestRingbuffer ∧
    (ConvertRGBA s input output zeroCopy env).state.mLatestRetrieved = s.mLatestRetrieved ∧
    ((ConvertRGBA s input output zeroCopy env).ret = false →
      (ConvertRGBA s input output zeroCopy env).state.mLatestRGBA = s.mLatestRGBA ∧
      (ConvertRGBA s input output zeroCopy env).output = none) := by
  simp only [ConvertRGBA, releaseOnModeChange, dispatch]
  split_ifs <;> simp

theorem capture_failure_state (s : gstPipeline) (cpu cuda : Bool) (timeout : Nat)
    (engine : GstStateChangeReturn) (signalled : Bool)
    (hfail : (Capture s cpu cuda timeout engine signalled).ret = false) :
    (s.mStreaming = true ∨ (Open s engine).ret = false →
      (Capture s cpu cuda timeout engine signalled).state = s) ∧
    (s.mStreaming = false → (Open s engine).ret = true →
      (Capture s cpu cuda timeout engine signalled).state = { s with mStreaming := true }) := by
  obtain ⟨a, str, w, h, d, sz, rc, rg, lr, lb, retr, rgba, zc, mem⟩ := s
  cases str <;> cases engine <;> cases signalled <;> cases retr <;>
    simp_all [Capture, Open]

theorem capture_success_state (s : gstPipeline) (cpu cuda : Bool) (timeout : Nat)
    (engine : GstStateChangeReturn) (signalled : Bool)
    (hok : (Capture s cpu cuda timeout engine signalled).ret = true) :
    (Capture s cpu cuda timeout engine signalled).state.mLatestRetrieved = true ∧
    (Capture s cpu cuda timeout engine signalled).state.mStreaming = true ∧
    (Capture s cpu cuda timeout engine signalled).state.mLatestRingbuffer
      = s.mLatestRingbuffer ∧
    (Capture s cpu cuda timeout engine signalled).state.mLatestRGBA = s.mLatestRGBA ∧
    s.mLatestRetrieved = false := by
  cases hstr : s.mStreaming <;> cases engine <;> cases signalled <;>
    cases hr : s.mLatestRetrieved <;> simp_all [Capture, Open]

/-- C3 (as stated, refuted). A failing CaptureRGBA can change the state: when the kernel
fails the pending frame has been marked retrieved and the converted pool allocated, and when
the wait times out after the implicit Open the pipeline stays Streaming. -/
theorem captureRGBA_failure_changes_state :
    (CaptureRGBA demoPending true 1000 false GstStateChangeReturn.SUCCESS true
        (demoEnv 500 false)).ret = false ∧
    demoPending.mLatestRetrieved = false ∧
    (CaptureRGBA demoPending true 1000 false GstStateChangeReturn.SUCCESS true
        (demoEnv 500 false)).state.mLatestRetrieved = true ∧
    demoPending.mRGBA 0 = 0 ∧
    (CaptureRGBA demoPending true 1000 false GstStateChangeReturn.SUCCESS true
        (demoEnv 500 false)).state.mRGBA 0 = 500 ∧
    (CaptureRGBA demoPipeline true 1000 false GstStateChangeReturn.SUCCESS false
        (demoEnv 500 true)).ret = false ∧
    demoPipeline.mStreaming = false ∧
    (CaptureRGBA demoPipeline true 1000 false GstStateChangeReturn.SUCCESS false
        (demoEnv 500 true)).state.mStreaming = true := by
  decide

/-- C3 (amended). When CaptureRGBA returns failure nothing is written to the output, the raw
index and the converted index are unchanged and a Streaming pipeline stays Streaming. If the
failure is in the capture stage (Open failed, the wait found no frame, the frame was already
retrieved) the state is the state before the call, except that a successful implicit Open
has made it Streaming. If the failure is in the conversion stage the frame has been marked
retrieved. -/
theorem captureRGBA_failure_state (s : gstPipeline) (output : Bool) (timeout : Nat)
    (zeroCopy : Bool) (engine : GstStateChangeReturn) (signalled : Bool) (env : CudaEnv)
    (r : ConvertResult)
    (hr : CaptureRGBA s output timeout zeroCopy engine signalled env = r)
    (hfail : r.ret = false) :
    r.output = none ∧
    r.state.mLatestRingbuffer = s.mLatestRingbuffer ∧
    r.state.mLatestRGBA = s.mLatestRGBA ∧
    (s.mStreaming = true → r.state.mStreaming = true) ∧
    ((Capture s true true timeout engine signalled).ret = false →
      (s.mStreaming = true ∨ (Open s engine).ret = false → r.state = s) ∧
      (s.mStreaming = false → (Open s engine).ret = true →
        r.state = { s with mStreaming := true })) ∧
    ((Capture s true true timeout engine signalled).ret = true →
      s.mLatestRetrieved = false ∧ r.state.mLatestRetrieved = true) := by
  subst hr
  cases hc : (Capture s true true timeout engine signalled).ret with
  | false =>
    have hst : (CaptureRGBA s output timeout zeroCopy engine signalled env).state
        = (Capture s true true timeout engine signalled).state := by
      simp [CaptureRGBA, hc]
    have hout : (CaptureRGBA s output timeout zeroCopy engine signalled env).output = none := by
      simp [CaptureRGBA, hc]
    obtain ⟨k1, k2⟩ := capture_failure_state s true true timeout engine signalled hc
    rw [hst]
    refine ⟨hout, ?_, ?_, ?_, fun _ => ⟨k1, k2⟩, fun h => absurd h (by simp)⟩
    · cases hs : s.mStreaming
      · cases ho : (Open s engine).ret
        · rw [k1 (Or.inr ho)]
        · rw [k2 hs ho]
      · rw [k1 (Or.inl hs)]
    · cases hs : s.mStreaming
      · cases ho : (Open s engine).ret
        · rw [k1 (Or.inr ho)]
        · rw [k2 hs ho]
      · rw [k1 (Or.inl hs)]
    · intro hs
      rw [k1 (Or.inl hs)]; exact hs
  | true =>
    obtain ⟨c1, c2, c3, c4, c5⟩ := capture_success_state s true true timeout engine signalled hc
    have hst : (CaptureRGBA s output timeout zeroCopy engine signalled env).state
        = (ConvertRGBA (Capture s true true timeout engine signalled).state
            ((Capture s true true timeout engine signalled).cuda.getD 0) output zeroCopy
            env).state := by
      simp [CaptureRGBA, hc]
    have hret : (ConvertRGBA (Capture s true true timeout engine signalled).state
            ((Capture s true true timeout engine signalled).cuda.getD 0) output zeroCopy
            env).ret = false := by
      simpa [CaptureRGBA, hc] using hfail
    have hout : (CaptureRGBA s output timeout zeroCopy engine signalled env).output
        = (ConvertRGBA (Capture s true true timeout engine signalled).state
            ((Capture s true true timeout engine signalled).cuda.getD 0) output zeroCopy
            env).output := by
      simp [CaptureRGBA, hc]
    obtain ⟨f1, f2, f3, f4⟩ := convertRGBA_frame (Capture s true true timeout engine signalled).state
      ((Capture s true true timeout engine signalled).cuda.getD 0) output zeroCopy env
    obtain ⟨g1, g2⟩ := f4 hret
    rw [hst, hout]
    refine ⟨g2, by rw [f2, c3], by rw [g1, c4], fun _ => by rw [f1, c2],
      fun h => absurd h (by simp), fun _ => ⟨c5, by rw [f3, c1]⟩⟩

theorem captureRGBA_failure_state_witness :
    (CaptureRGBA demoPending true 1000 false GstStateChangeReturn.SUCCESS false
        (demoEnv 500 true)).ret = false ∧
    (CaptureRGBA demoPending true 1000 false GstStateChangeReturn.SUCCESS false
        (demoEnv 500 true)).state.mLatestRGBA = demoPending.mLatestRGBA :=
  ⟨by decide,
    (captureRGBA_failure_state demoPending true 1000 false GstStateChangeReturn.SUCCESS false
      (demoEnv 500 true) _ rfl (by decide)).2.2.1⟩

/-! ## Loops of `ConvertRGBA` -/

theorem freeRGBA_all (mode : Bool) (ns : List Nat) :
    ∀ (rgba : Nat → Ptr) (calls : List Call), (∀ n ∈ ns, rgba n ≠ 0) → ns.Nodup →
      freeRGBA mode ns rgba calls
        = (fun i => if i ∈ ns then 0 else rgba i,
           calls ++ ns.map (fun n => freeCall mode (rgba n))) := by
  induction ns with
  | nil => intro rgba calls _ _; simp [freeRGBA]
  | cons n ns ih =>
    intro rgba calls hall hnd
    have hn : rgba n ≠ 0 := hall n (List.mem_cons_self n ns)
    have hnotin : n ∉ ns := (List.nodup_cons.mp hnd).1
    have hupd : ∀ m ∈ ns, Function.update rgba n 0 m = rgba m := by
      intro m hm
      have hne : m ≠ n := fun h => hnotin (h ▸ hm)
      simp [Function.update, hne]
    have hall' : ∀ m ∈ ns, Function.update rgba n 0 m ≠ 0 := by
      intro m hm
      rw [hupd m hm]
      exact hall m (List.mem_cons_of_mem n hm)
    rw [freeRGBA, if_pos hn, ih _ _ hall' (List.nodup_cons.mp hnd).2]
    refine Prod.ext ?_ ?_
    · funext i
      by_cases hi : i = n
      · subst hi; simp [hnotin]
      · by_cases hin : i ∈ ns
        · simp [hin]
        · simp [hin, hi, Function.update]
    · have hmap : ns.map (fun m => freeCall mode (Function.update rgba n 0 m))
          = ns.map (fun m => freeCall mode (rgba m)) :=
        List.map_congr_left (fun m hm => by rw [hupd m hm])
      simp only [hmap, List.map_cons, List.append_assoc, List.singleton_append]
      cases mode <;> simp [freeCall]

theorem allocRGBA_success (zeroCopy : Bool) (size : Nat) (env : CudaEnv)
    (henv : nonNull env) (ns : List Nat) :
    ∀ (rgba : Nat → Ptr) (calls : List Call),
      (allocRGBA zeroCopy size env ns rgba calls).1 = true →
      (∀ i, rgba i ≠ 0 → (allocRGBA zeroCopy size env ns rgba calls).2.1 i ≠ 0) ∧
      (∀ n ∈ ns, (allocRGBA zeroCopy size env ns rgba calls).2.1 n ≠ 0) ∧
      (allocRGBA zeroCopy size env ns rgba calls).2.2
        = calls ++ ns.map (fun _ => allocCall zeroCopy size) := by
  induction ns with
  | nil => intro rgba calls _; simp [allocRGBA]
  | cons n ns ih =>
    intro rgba calls hok
    cases zeroCopy with
    | true =>
      cases hm : env.allocMapped n with
      | none => simp [allocRGBA, hm] at hok
      | some pr =>
        obtain ⟨c, g⟩ := pr
        by_cases hcg : c = g
        · have hg : g ≠ 0 := henv.1 n c g hm
          have heq : allocRGBA true size env (n :: ns) rgba calls
              = allocRGBA true size env ns (Function.update rgba n g)
                  (calls ++ [Call.cudaAllocMapped size]) := by
            simp [allocRGBA, hm, hcg]
          rw [heq] at hok ⊢
          obtain ⟨k1, k2, k3⟩ := ih _ _ hok
          refine ⟨?_, ?_, ?_⟩
          · intro i hi
            apply k1
            by_cases hin : i = n
            · subst hin; simpa using hg
            · simpa [Function.update, hin] using hi
          · intro m hm'
            rcases List.mem_cons.mp hm' with h | h
            · subst h; exact k1 _ (by simpa using hg)
            · exact k2 m h
          · rw [k3]; simp [allocCall]
        · simp [allocRGBA, hm, hcg] at hok
    | false =>
      cases hm : env.malloc n with
      | none => simp [allocRGBA, hm] at hok
      | some p =>
        have hp : p ≠ 0 := henv.2 n p hm
        have heq : allocRGBA false size env (n :: ns) rgba calls
            = allocRGBA false size env ns (Function.update rgba n p)
                (calls ++ [Call.cudaMalloc size]) := by
          simp [allocRGBA, hm]
        rw [heq] at hok ⊢
        obtain ⟨k1, k2, k3⟩ := ih _ _ hok
        refine ⟨?_, ?_, ?_⟩
        · intro i hi
          apply k1
          by_cases hin : i = n
          · subst hin; simpa using hp
          · simpa [Function.update, hin] using hi
        · intro m hm'
          rcases List.mem_cons.mp hm' with h | h
          · subst h; exact k1 _ (by simpa using hp)
          · exact k2 m h
        · rw [k3]; simp [allocCall]

theorem memoryCalls_append (a b : List Call) :
    memoryCalls (a ++ b) = memoryCalls a ++ memoryCalls b := by
  simp [memoryCalls]

theorem memoryCalls_free (mode : Bool) (f : Nat → Ptr) (ns : List Nat) :
    memoryCalls (ns.map (fun n => freeCall mode (f n))) = ns.map (fun n => freeCall mode (f n)) := by
  induction ns with
  | nil => rfl
  | cons n ns ih =>
    simp only [memoryCalls] at ih
    cases mode <;> simp [memoryCalls, freeCall, isFree, ih]

theorem memoryCalls_alloc (zeroCopy : Bool) (size : Nat) (ns : List Nat) :
    memoryCalls (ns.map (fun _ => allocCall zeroCopy size))
      = ns.map (fun _ => allocCall zeroCopy size) := by
  induction ns with
  | nil => rfl
  | cons n ns ih =>
    simp only [memoryCalls] at ih
    cases zeroCopy <;> simp [memoryCalls, allocCall, isFree, isAlloc, ih]

theorem dispatch_frame (s : gstPipeline) (input : Ptr) (env : CudaEnv) (calls : List Call) :
    (dispatch s input env calls).state.mRGBA = s.mRGBA ∧
    (dispatch s input env calls).state.mRGBAZeroCopy = s.mRGBAZeroCopy ∧
    memoryCalls (dispatch s input env calls).calls = memoryCalls calls ∧
    (dispatch s input env calls).ret = env.kernelOk := by
  simp only [dispatch]
  split_ifs <;> simp_all [memoryCalls, isFree, isAlloc]

theorem convertRGBA_same_mode (s : gstPipeline) (input : Ptr) (zeroCopy : Bool) (env : CudaEnv)
    (hin : input ≠ 0) (h0 : s.mRGBA 0 ≠ 0) (hz : zeroCopy = s.mRGBAZeroCopy) :
    ConvertRGBA s input true zeroCopy env = dispatch s input env [] := by
  simp [ConvertRGBA, releaseOnModeChange, hin, h0, hz]

theorem convertRGBA_input (s : gstPipeline) (input : Ptr) (output zeroCopy : Bool)
    (env : CudaEnv) (hok : (ConvertRGBA s input output zeroCopy env).ret = true) :
    input ≠ 0 ∧ output = true := by
  constructor
  · intro h; simp [ConvertRGBA, h] at hok
  · cases output
    · simp [ConvertRGBA] at hok
    · rfl

theorem convertRGBA_mode_step (s : gstPipeline) (input : Ptr) (zeroCopy : Bool)
    (env : CudaEnv) (hpool : poolAllocated s) (henv : nonNull env)
    (hok : (ConvertRGBA s input true zeroCopy env).ret = true) :
    (ConvertRGBA s input true zeroCopy env).state.mRGBAZeroCopy = zeroCopy ∧
    poolAllocated (ConvertRGBA s input true zeroCopy env).state ∧
    memoryCalls (ConvertRGBA s input true zeroCopy env).calls
      = (if zeroCopy = s.mRGBAZeroCopy then [] else reallocationRound s zeroCopy) := by
  have hin : input ≠ 0 := (convertRGBA_input s input true zeroCopy env hok).1
  have h0 : s.mRGBA 0 ≠ 0 := hpool 0 (by decide)
  by_cases hz : zeroCopy = s.mRGBAZeroCopy
  · rw [convertRGBA_same_mode s input zeroCopy env hin h0 hz]
    obtain ⟨d1, d2, d3, _⟩ := dispatch_frame s input env []
    refine ⟨by rw [d2, hz], ?_, by rw [d3, if_pos hz]; rfl⟩
    intro n hn
    rw [d1]; exact hpool n hn
  · have hfree := freeRGBA_all s.mRGBAZeroCopy (List.range NUM_RINGBUFFERS) s.mRGBA []
      (fun n hn => hpool n (List.mem_range.mp hn)) (List.nodup_range _)
    have hrel : releaseOnModeChange s zeroCopy
        = ({ s with
              mRGBA := fun i => if i ∈ List.range NUM_RINGBUFFERS then 0 else s.mRGBA i
              mRGBAZeroCopy := false },
           (List.range NUM_RINGBUFFERS).map (fun n => freeCall s.mRGBAZeroCopy (s.mRGBA n))) := by
      simp [releaseOnModeChange, h0, hz, hfree]
    have hzero : (releaseOnModeChange s zeroCopy).1.mRGBA 0 = 0 := by
      rw [hrel]; simp [NUM_RINGBUFFERS]
    cases ha : (allocRGBA zeroCopy
        ((((releaseOnModeChange s zeroCopy).1.mWidth * (releaseOnModeChange s zeroCopy).1.mHeight)
          % UINT32_RANGE) * SIZEOF_FLOAT4) env (List.range NUM_RINGBUFFERS)
        (releaseOnModeChange s zeroCopy).1.mRGBA []).1 with
    | false =>
      simp [ConvertRGBA, hin, hzero, ha] at hok
    | true =>
      obtain ⟨_, k2, k3⟩ := allocRGBA_success zeroCopy _ env henv _ _ _ ha
      have heq : ConvertRGBA s input true zeroCopy env
          = dispatch
              { (releaseOnModeChange s zeroCopy).1 with
                mRGBA := (allocRGBA zeroCopy
                  ((((releaseOnModeChange s zeroCopy).1.mWidth
                    * (releaseOnModeChange s zeroCopy).1.mHeight) % UINT32_RANGE)
                    * SIZEOF_FLOAT4) env (List.range NUM_RINGBUFFERS)
                  (releaseOnModeChange s zeroCopy).1.mRGBA []).2.1
                mRGBAZeroCopy := zeroCopy } input env
              ((releaseOnModeChange s zeroCopy).2 ++ (allocRGBA zeroCopy
                  ((((releaseOnModeChange s zeroCopy).1.mWidth
                    * (releaseOnModeChange s zeroCopy).1.mHeight) % UINT32_RANGE)
                    * SIZEOF_FLOAT4) env (List.range NUM_RINGBUFFERS)
                  (releaseOnModeChange s zeroCopy).1.mRGBA []).2.2) := by
        simp [ConvertRGBA, hin, hzero, ha]
      rw [heq]
      obtain ⟨d1, d2, d3, _⟩ := dispatch_frame
        { (releaseOnModeChange s zeroCopy).1 with
          mRGBA := (allocRGBA zeroCopy
            ((((releaseOnModeChange s zeroCopy).1.mWidth
              * (releaseOnModeChange s zeroCopy).1.mHeight) % UINT32_RANGE)
              * SIZEOF_FLOAT4) env (List.range NUM_RINGBUFFERS)
            (releaseOnModeChange s zeroCopy).1.mRGBA []).2.1
          mRGBAZeroCopy := zeroCopy } input env
        ((releaseOnModeChange s zeroCopy).2 ++ (allocRGBA zeroCopy
            ((((releaseOnModeChange s zeroCopy).1.mWidth
              * (releaseOnModeChange s zeroCopy).1.mHeight) % UINT32_RANGE)
              * SIZEOF_FLOAT4) env (List.range NUM_RINGBUFFERS)
            (releaseOnModeChange s zeroCopy).1.mRGBA []).2.2)
      refine ⟨by rw [d2], ?_, ?_⟩
      · intro n hn
        rw [d1]
        exact k2 n (List.mem_range.mpr hn)
      · rw [d3, if_neg hz, k3, memoryCalls_append]
        have hw : (releaseOnModeChange s zeroCopy).1.mWidth = s.mWidth := by rw [hrel]
        have hh : (releaseOnModeChange s zeroCopy).1.mHeight = s.mHeight := by rw [hrel]
        have h2 : (releaseOnModeChange s zeroCopy).2
            = (List.range NUM_RINGBUFFERS).map
                (fun n => freeCall s.mRGBAZeroCopy (s.mRGBA n)) := by rw [hrel]
        rw [hw, hh, h2, List.nil_append, memoryCalls_free, memoryCalls_alloc]
        rfl

theorem reallocationRound_ne_nil (s : gstPipeline) (zeroCopy : Bool) :
    (reallocationRound s zeroCopy).isEmpty = false := by
  simp [reallocationRound, NUM_RINGBUFFERS]

theorem convertAll_steps (cs : List Conversion) :
    ∀ s : gstPipeline, poolAllocated s → (∀ c ∈ cs, nonNull c.env) →
      (∀ st ∈ convertAll s cs, st.result.ret = true) →
      (∀ st ∈ convertAll s cs,
        poolAllocated st.before ∧
        memoryCalls st.result.calls
          = (if st.request.zeroCopy = st.before.mRGBAZeroCopy then []
             else reallocationRound st.before st.request.zeroCopy) ∧
        poolAllocated st.result.state ∧
        st.result.state.mRGBAZeroCopy = st.request.zeroCopy) ∧
      (convertAll s cs).countP (fun st => !(memoryCalls st.result.calls).isEmpty)
        = transitions s.mRGBAZeroCopy (cs.map (fun c => c.zeroCopy)) := by
  induction cs with
  | nil => intro s _ _ _; simp [convertAll, transitions]
  | cons c cs ih =>
    intro s hpool henv hok
    have hret : (ConvertRGBA s c.input true c.zeroCopy c.env).ret = true :=
      hok { before := s, request := c, result := ConvertRGBA s c.input true c.zeroCopy c.env }
        (by simp [convertAll])
    obtain ⟨m1, m2, m3⟩ :=
      convertRGBA_mode_step s c.input c.zeroCopy c.env hpool
        (henv c (List.mem_cons_self c cs)) hret
    have hok' : ∀ st ∈ convertAll (ConvertRGBA s c.input true c.zeroCopy c.env).state cs,
        st.result.ret = true := fun st hst => hok st (by simp [convertAll, hst])
    obtain ⟨i1, i2⟩ := ih (ConvertRGBA s c.input true c.zeroCopy c.env).state m2
      (fun x hx => henv x (List.mem_cons_of_mem c hx)) hok'
    constructor
    · intro st hst
      simp only [convertAll, List.mem_cons] at hst
      rcases hst with h | h
      · subst h
        exact ⟨hpool, m3, m2, m1⟩
      · exact i1 st h
    · simp only [convertAll, List.map_cons, transitions, List.countP_cons, i2, m1, m3]
      by_cases hz : c.zeroCopy = s.mRGBAZeroCopy
      · simp [hz]
      · simp [hz, reallocationRound_ne_nil]
        omega

/-- C5. In a sequence of successful ConvertRGBA calls on an allocated converted pool, a call
whose zeroCopy flag differs from the pool mode releases the sixteen slots with the
deallocator of the current mode and then allocates sixteen slots in the requested mode, once;
a call whose flag equals the pool mode releases and allocates nothing. After every call each
slot is allocated and the mode flag is the requested flag, and the number of calls that
release or allocate equals the number of mode transitions of the sequence. -/
theorem convertAll_mode_switches (s : gstPipeline) (cs : List Conversion)
    (hpool : poolAllocated s) (henv : ∀ c ∈ cs, nonNull c.env)
    (hok : ∀ st ∈ convertAll s cs, st.result.ret = true) :
    (∀ st ∈ convertAll s cs,
      poolAllocated st.before ∧
      memoryCalls st.result.calls
        = (if st.request.zeroCopy = st.before.mRGBAZeroCopy then []
           else reallocationRound st.before st.request.zeroCopy) ∧
      poolAllocated st.result.state ∧
      st.result.state.mRGBAZeroCopy = st.request.zeroCopy) ∧
    (convertAll s cs).countP (fun st => !(memoryCalls st.result.calls).isEmpty)
      = transitions s.mRGBAZeroCopy (cs.map (fun c => c.zeroCopy)) :=
  convertAll_steps cs s hpool henv hok

theorem demoEnv_nonNull (base : Nat) (ok : Bool) (hb : 0 < base) : nonNull (demoEnv base ok) := by
  constructor
  · intro n c g h
    simp only [demoEnv, Option.some.injEq, Prod.mk.injEq] at h
    rw [← h.2]
    exact Nat.ne_of_gt (Nat.lt_of_lt_of_le hb (Nat.le_add_right _ _))
  · intro n q h
    simp only [demoEnv, Option.some.injEq] at h
    rw [← h]
    exact Nat.ne_of_gt (Nat.lt_of_lt_of_le hb (Nat.le_add_right _ _))

theorem convertAll_mode_switches_witness :
    poolAllocated demoConverted ∧
    (convertAll demoConverted demoConversions).countP
        (fun st => !(memoryCalls st.result.calls).isEmpty)
      = transitions demoConverted.mRGBAZeroCopy (demoConversions.map (fun c => c.zeroCopy)) ∧
    transitions demoConverted.mRGBAZeroCopy (demoConversions.map (fun c => c.zeroCopy)) = 2 :=
  ⟨by decide,
    (convertAll_mode_switches demoConverted demoConversions (by decide)
      (by
        intro c hc
        simp only [demoConversions, List.mem_cons, List.mem_singleton, List.not_mem_nil,
          or_false] at hc
        rcases hc with h | h | h <;> subst h <;> exact demoEnv_nonNull _ _ (by decide))
      (by decide)).2,
    by decide⟩

/-- C4 (the code at the failing input). On an unallocated pool, when the allocation of slot 1
fails the call returns false but slot 0 keeps its new buffer: the pool is not left
unallocated. The next device-mode call, with a working allocator, requests no allocation,
leaves slot 1 NULL and only runs the kernel; after the same failure in mapped mode the mode
flag is still false, so the next mapped call releases the mapped slot 0 with cudaFree. -/
theorem convertRGBA_allocation_failure_keeps_slots :
    (ConvertRGBA demoPipeline 8192 true false (failingEnv 1)).ret = false ∧
    (ConvertRGBA demoPipeline 8192 true false (failingEnv 1)).state.mRGBA 0 = 500 ∧
    (ConvertRGBA demoPipeline 8192 true false (failingEnv 1)).state.mRGBA 1 = 0 ∧
    (ConvertRGBA (ConvertRGBA demoPipeline 8192 true false (failingEnv 1)).state 8192 true false
        (demoEnv 600 true)).calls = [Call.cudaNV12ToRGBA32 8192 500 1280 720] ∧
    (ConvertRGBA (ConvertRGBA demoPipeline 8192 true false (failingEnv 1)).state 8192 true false
        (demoEnv 600 true)).state.mRGBA 1 = 0 ∧
    (ConvertRGBA demoPipeline 8192 true true (failingEnv 1)).ret = false ∧
    (ConvertRGBA demoPipeline 8192 true true (failingEnv 1)).state.mRGBA 0 = 500 ∧
    (ConvertRGBA demoPipeline 8192 true true (failingEnv 1)).state.mRGBAZeroCopy = false ∧
    (ConvertRGBA (ConvertRGBA demoPipeline 8192 true true (failingEnv 1)).state 8192 true true
        (demoEnv 600 true)).calls.head? = some (Call.cudaFree 500) := by
  decide

/-- C6 (as stated, refuted). With a failing kernel, a call on an unallocated pool leaves the
slots allocated, and a call in the other mode leaves the pool reallocated with the mode flag
changed. -/
theorem convertRGBA_kernel_failure_changes_pool :
    (demoEnv 500 false).kernelOk = false ∧
    (ConvertRGBA demoPipeline 8192 true false (demoEnv 500 false)).ret = false ∧
    demoPipeline.mRGBA 0 = 0 ∧
    (ConvertRGBA demoPipeline 8192 true false (demoEnv 500 false)).state.mRGBA 0 = 500 ∧
    (ConvertRGBA demoConverted 8192 true true (demoEnv 600 false)).ret = false ∧
    demoConverted.mRGBAZeroCopy = false ∧
    (ConvertRGBA demoConverted 8192 true true (demoEnv 600 false)).state.mRGBAZeroCopy = true ∧
    demoConverted.mRGBA 0 = 500 ∧
    (ConvertRGBA demoConverted 8192 true true (demoEnv 600 false)).state.mRGBA 0 = 600 := by
  decide

/-! ## Kernel invocations of `ConvertRGBA` -/

theorem freeRGBA_kernelCalls (mode : Bool) (ns : List Nat) :
    ∀ (rgba : Nat → Ptr) (calls : List Call),
      kernelCalls (freeRGBA mode ns rgba calls).2 = kernelCalls calls := by
  induction ns with
  | nil => intro rgba calls; rfl
  | cons n ns ih =>
    intro rgba calls
    rw [freeRGBA]
    by_cases h : rgba n ≠ 0
    · rw [if_pos h, ih]
      cases mode <;> simp [kernelCalls, isKernel]
    · rw [if_neg h]
      exact ih _ _

theorem allocRGBA_kernelCalls (zeroCopy : Bool) (size : Nat) (env : CudaEnv) (ns : List Nat) :
    ∀ (rgba : Nat → Ptr) (calls : List Call),
      kernelCalls (allocRGBA zeroCopy size env ns rgba calls).2.2 = kernelCalls calls := by
  induction ns with
  | nil => intro rgba calls; rfl
  | cons n ns ih =>
    intro rgba calls
    cases zeroCopy with
    | true =>
      cases hm : env.allocMapped n with
      | none => simp [allocRGBA, hm, kernelCalls, isKernel]
      | some pr =>
        obtain ⟨c, g⟩ := pr
        by_cases hcg : c = g
        · have heq : allocRGBA true size env (n :: ns) rgba calls
              = allocRGBA true size env ns (Function.update rgba n g)
                  (calls ++ [Call.cudaAllocMapped size]) := by
            simp [allocRGBA, hm, hcg]
          rw [heq, ih]
          simp [kernelCalls, isKernel]
        · simp [allocRGBA, hm, hcg, kernelCalls, isKernel]
    | false =>
      cases hm : env.malloc n with
      | none => simp [allocRGBA, hm, kernelCalls, isKernel]
      | some q =>
        have heq : allocRGBA false size env (n :: ns) rgba calls
            = allocRGBA false size env ns (Function.update rgba n q)
                (calls ++ [Call.cudaMalloc size]) := by
          simp [allocRGBA, hm]
        rw [heq, ih]
        simp [kernelCalls, isKernel]

theorem allocRGBA_total (zeroCopy : Bool) (size : Nat) (env : CudaEnv)
    (henv : allocSucceeds env zeroCopy) (ns : List Nat) :
    ∀ (rgba : Nat → Ptr) (calls : List Call), (∀ n ∈ ns, n < NUM_RINGBUFFERS) →
      (allocRGBA zeroCopy size env ns rgba calls).1 = true := by
  induction ns with
  | nil => intro rgba calls _; rfl
  | cons n ns ih =>
    intro rgba calls hns
    have hn := henv n (hns n (List.mem_cons_self n ns))
    have hrest : ∀ m ∈ ns, m < NUM_RINGBUFFERS := fun m hm => hns m (List.mem_cons_of_mem n hm)
    cases zeroCopy with
    | true =>
      obtain ⟨q, hq⟩ : ∃ q, env.allocMapped n = some (q, q) := by simpa using hn
      have heq : allocRGBA true size env (n :: ns) rgba calls
          = allocRGBA true size env ns (Function.update rgba n q)
              (calls ++ [Call.cudaAllocMapped size]) := by
        simp [allocRGBA, hq]
      rw [heq]
      exact ih _ _ hrest
    | false =>
      obtain ⟨q, hq⟩ : ∃ q, env.malloc n = some q := by simpa using hn
      have heq : allocRGBA false size env (n :: ns) rgba calls
          = allocRGBA false size env ns (Function.update rgba n q)
              (calls ++ [Call.cudaMalloc size]) := by
        simp [allocRGBA, hq]
      rw [heq]
      exact ih _ _ hrest

theorem releaseOnModeChange_frame (s : gstPipeline) (zeroCopy : Bool) :
    (releaseOnModeChange s zeroCopy).1.mDepth = s.mDepth ∧
    (releaseOnModeChange s zeroCopy).1.mWidth = s.mWidth ∧
    (releaseOnModeChange s zeroCopy).1.mHeight = s.mHeight ∧
    (releaseOnModeChange s zeroCopy).1.mLatestRGBA = s.mLatestRGBA ∧
    kernelCalls (releaseOnModeChange s zeroCopy).2 = [] := by
  unfold releaseOnModeChange
  split_ifs
  · refine ⟨rfl, rfl, rfl, rfl, ?_⟩
    rw [freeRGBA_kernelCalls]; rfl
  · exact ⟨rfl, rfl, rfl, rfl, rfl⟩

theorem kernelCalls_append (a b : List Call) :
    kernelCalls (a ++ b) = kernelCalls a ++ kernelCalls b := by
  simp [kernelCalls]

/-- Either `ConvertRGBA` returns before the kernel selection, or it is the kernel selection
run on a state with the same format and converted index. -/
theorem convertRGBA_cases (s : gstPipeline) (input : Ptr) (output zeroCopy : Bool)
    (env : CudaEnv) :
    ((ConvertRGBA s input output zeroCopy env).ret = false ∧
      kernelCalls (ConvertRGBA s input output zeroCopy env).calls = [] ∧
      (input = 0 ∨ output = false ∨ ¬ allocSucceeds env zeroCopy)) ∨
    ∃ s1 pre, ConvertRGBA s input output zeroCopy env = dispatch s1 input env pre ∧
      kernelCalls pre = [] ∧ s1.mDepth = s.mDepth ∧ s1.mWidth = s.mWidth ∧
      s1.mHeight = s.mHeight ∧ s1.mLatestRGBA = s.mLatestRGBA := by
  obtain ⟨r1, r2, r3, r4, r5⟩ := releaseOnModeChange_frame s zeroCopy
  by_cases h1 : input = 0 ∨ output = false
  · left
    refine ⟨by simp [ConvertRGBA, h1], by simp [ConvertRGBA, h1, kernelCalls], ?_⟩
    rcases h1 with h | h
    · exact Or.inl h
    · exact Or.inr (Or.inl h)
  · by_cases h2 : (releaseOnModeChange s zeroCopy).1.mRGBA 0 = 0
    · cases ha : (allocRGBA zeroCopy
          ((((releaseOnModeChange s zeroCopy).1.mWidth
            * (releaseOnModeChange s zeroCopy).1.mHeight) % UINT32_RANGE) * SIZEOF_FLOAT4)
          env (List.range NUM_RINGBUFFERS) (releaseOnModeChange s zeroCopy).1.mRGBA []).1 with
      | false =>
        left
        refine ⟨by simp [ConvertRGBA, h1, h2, ha], ?_, ?_⟩
        · simp only [ConvertRGBA, h1, h2, ha, if_false, if_true, Bool.not_false]
          rw [kernelCalls_append, r5, allocRGBA_kernelCalls]
          rfl
        · right; right
          intro hs
          rw [allocRGBA_total zeroCopy _ env hs _ _ _
            (fun n hn => List.mem_range.mp hn)] at ha
          exact absurd ha (by simp)
      | true =>
        right
        refine ⟨{ (releaseOnModeChange s zeroCopy).1 with
                  mRGBA := (allocRGBA zeroCopy
                    ((((releaseOnModeChange s zeroCopy).1.mWidth
                      * (releaseOnModeChange s zeroCopy).1.mHeight) % UINT32_RANGE)
                      * SIZEOF_FLOAT4) env (List.range NUM_RINGBUFFERS)
                    (releaseOnModeChange s zeroCopy).1.mRGBA []).2.1
                  mRGBAZeroCopy := zeroCopy },
          (releaseOnModeChange s zeroCopy).2 ++ (allocRGBA zeroCopy
              ((((releaseOnModeChange s zeroCopy).1.mWidth
                * (releaseOnModeChange s zeroCopy).1.mHeight) % UINT32_RANGE)
                * SIZEOF_FLOAT4) env (List.range NUM_RINGBUFFERS)
              (releaseOnModeChange s zeroCopy).1.mRGBA []).2.2,
          by simp [ConvertRGBA, h1, h2, ha], ?_, r1, r2, r3, r4⟩
        rw [kernelCalls_append, r5, allocRGBA_kernelCalls]
        rfl
    · right
      exact ⟨(releaseOnModeChange s zeroCopy).1, (releaseOnModeChange s zeroCopy).2,
        by simp [ConvertRGBA, h1, h2], r5, r1, r2, r3, r4⟩

theorem dispatch_kernelCalls (s : gstPipeline) (input : Ptr) (env : CudaEnv)
    (pre : List Call) (hpre : kernelCalls pre = []) :
    (s.mDepth = 12 → kernelCalls (dispatch s input env pre).calls
      = [Call.cudaNV12ToRGBA32 input (s.mRGBA s.mLatestRGBA) s.mWidth s.mHeight]) ∧
    (s.mDepth ≠ 12 → kernelCalls (dispatch s input env pre).calls
      = [Call.cudaRGB8ToRGBA32 input (s.mRGBA s.mLatestRGBA) s.mWidth s.mHeight]) := by
  constructor
  · intro hd
    simp only [dispatch, hd, if_true]
    split_ifs <;> rw [kernelCalls_append, hpre] <;> rfl
  · intro hd
    simp only [dispatch, hd, if_false]
    split_ifs <;> rw [kernelCalls_append, hpre] <;> rfl

theorem dispatch_success (s : gstPipeline) (input : Ptr) (env : CudaEnv) (pre : List Call)
    (hok : (dispatch s input env pre).ret = true) :
    (dispatch s input env pre).output = some (s.mRGBA s.mLatestRGBA) ∧
    (dispatch s input env pre).state.mLatestRGBA = (s.mLatestRGBA + 1) % NUM_RINGBUFFERS := by
  have hk : env.kernelOk = true := by
    rw [← (dispatch_frame s input env pre).2.2.2]; exact hok
  simp only [dispatch, hk]
  split_ifs <;> simp_all [uint32_succ_mod]

/-- C8. With negotiated depth d = mDepth, the kernels ConvertRGBA invokes are none or exactly
one: the NV12 kernel when d = 12 and the RGB8 kernel for every other d, on the input, the
converted slot at the current index and the current width and height. None is invoked only
when the call returns false before the dispatch (NULL input or output argument, or a slot
allocation that fails). -/
theorem convertRGBA_kernel_dispatch (s : gstPipeline) (input : Ptr) (output zeroCopy : Bool)
    (env : CudaEnv) :
    (s.mDepth = 12 →
      kernelCalls (ConvertRGBA s input output zeroCopy env).calls = [] ∨
      kernelCalls (ConvertRGBA s input output zeroCopy env).calls
        = [Call.cudaNV12ToRGBA32 input
            ((ConvertRGBA s input output zeroCopy env).state.mRGBA s.mLatestRGBA)
            s.mWidth s.mHeight]) ∧
    (s.mDepth ≠ 12 →
      kernelCalls (ConvertRGBA s input output zeroCopy env).calls = [] ∨
      kernelCalls (ConvertRGBA s input output zeroCopy env).calls
        = [Call.cudaRGB8ToRGBA32 input
            ((ConvertRGBA s input output zeroCopy env).state.mRGBA s.mLatestRGBA)
            s.mWidth s.mHeight]) ∧
    (kernelCalls (ConvertRGBA s input output zeroCopy env).calls = [] →
      (ConvertRGBA s input output zeroCopy env).ret = false ∧
      (input = 0 ∨ output = false ∨ ¬ allocSucceeds env zeroCopy)) := by
  rcases convertRGBA_cases s input output zeroCopy env with ⟨h1, h2, h3⟩ | ⟨s1, pre, heq, hpre, e1, e2, e3, e4⟩
  · exact ⟨fun _ => Or.inl h2, fun _ => Or.inl h2, fun _ => ⟨h1, h3⟩⟩
  · obtain ⟨k1, k2⟩ := dispatch_kernelCalls s1 input env pre hpre
    have hst : (dispatch s1 input env pre).state.mRGBA = s1.mRGBA :=
      (dispatch_frame s1 input env pre).1
    rw [heq, hst]
    refine ⟨fun hd => Or.inr ?_, fun hd => Or.inr ?_, fun hnil => ?_⟩
    · rw [k1 (e1.trans hd), e2, e3, e4]
    · rw [k2 (fun h => hd (e1.symm.trans h)), e2, e3, e4]
    · by_cases hd : s1.mDepth = 12
      · rw [k1 hd] at hnil; exact absurd hnil (by simp)
      · rw [k2 hd] at hnil; exact absurd hnil (by simp)

theorem convertRGBA_success_slot (s : gstPipeline) (input : Ptr) (output zeroCopy : Bool)
    (env : CudaEnv) (hok : (ConvertRGBA s input output zeroCopy env).ret = true) :
    (ConvertRGBA s input output zeroCopy env).output
      = some ((ConvertRGBA s input output zeroCopy env).state.mRGBA s.mLatestRGBA) ∧
    (kernelCalls (ConvertRGBA s input output zeroCopy env).calls).map kernelOutput
      = [some ((ConvertRGBA s input output zeroCopy env).state.mRGBA s.mLatestRGBA)] ∧
    (ConvertRGBA s input output zeroCopy env).state.mLatestRGBA
      = (s.mLatestRGBA + 1) % NUM_RINGBUFFERS := by
  rcases convertRGBA_cases s input output zeroCopy env with ⟨h1, _, _⟩ | ⟨s1, pre, heq, hpre, e1, e2, e3, e4⟩
  · rw [h1] at hok; exact absurd hok (by simp)
  · rw [heq] at hok ⊢
    obtain ⟨d1, d2⟩ := dispatch_success s1 input env pre hok
    obtain ⟨k1, k2⟩ := dispatch_kernelCalls s1 input env pre hpre
    have hst : (dispatch s1 input env pre).state.mRGBA = s1.mRGBA :=
      (dispatch_frame s1 input env pre).1
    rw [hst, d1, d2, e4]
    refine ⟨rfl, ?_, rfl⟩
    by_cases hd : s1.mDepth = 12
    · rw [k1 hd, e4]; rfl
    · rw [k2 hd, e4]; rfl

theorem convertAll_slots (cs : List Conversion) :
    ∀ s : gstPipeline, s.mLatestRGBA < NUM_RINGBUFFERS →
      (∀ st ∈ convertAll s cs, st.result.ret = true) →
      ∀ j st, (convertAll s cs)[j]? = some st →
        st.before.mLatestRGBA = (s.mLatestRGBA + j) % NUM_RINGBUFFERS ∧
        st.result.output
          = some (st.result.state.mRGBA ((s.mLatestRGBA + j) % NUM_RINGBUFFERS)) ∧
        (kernelCalls st.result.calls).map kernelOutput
          = [some (st.result.state.mRGBA ((s.mLatestRGBA + j) % NUM_RINGBUFFERS))] ∧
        st.result.state.mLatestRGBA = (s.mLatestRGBA + j + 1) % NUM_RINGBUFFERS ∧
        st.result.state.mLatestRGBA < NUM_RINGBUFFERS := by
  induction cs with
  | nil => intro s _ _ j st h; simp [convertAll] at h
  | cons c cs ih =>
    intro s hi hok j st hst
    have hret : (ConvertRGBA s c.input true c.zeroCopy c.env).ret = true :=
      hok { before := s, request := c, result := ConvertRGBA s c.input true c.zeroCopy c.env }
        (by simp [convertAll])
    obtain ⟨m1, m2, m3⟩ := convertRGBA_success_slot s c.input true c.zeroCopy c.env hret
    cases j with
    | zero =>
      simp only [convertAll, List.getElem?_cons_zero, Option.some.injEq] at hst
      subst hst
      have hmod : (s.mLatestRGBA + 0) % NUM_RINGBUFFERS = s.mLatestRGBA :=
        Nat.mod_eq_of_lt hi
      rw [hmod]
      refine ⟨rfl, m1, m2, m3, ?_⟩
      show (ConvertRGBA s c.input true c.zeroCopy c.env).state.mLatestRGBA < NUM_RINGBUFFERS
      rw [m3]
      exact Nat.mod_lt _ (by decide)
    | succ j =>
      simp only [convertAll, List.getElem?_cons_succ] at hst
      have hi' : (ConvertRGBA s c.input true c.zeroCopy c.env).state.mLatestRGBA
          < NUM_RINGBUFFERS := by
        rw [m3]; exact Nat.mod_lt _ (by decide)
      have hok' : ∀ x ∈ convertAll (ConvertRGBA s c.input true c.zeroCopy c.env).state cs,
          x.result.ret = true := fun x hx => hok x (by simp [convertAll, hx])
      have h := ih _ hi' hok' j st hst
      rw [m3] at h
      have e1 : ((s.mLatestRGBA + 1) % NUM_RINGBUFFERS + j) % NUM_RINGBUFFERS
          = (s.mLatestRGBA + (j + 1)) % NUM_RINGBUFFERS := by
        simp only [NUM_RINGBUFFERS]; omega
      have e2 : ((s.mLatestRGBA + 1) % NUM_RINGBUFFERS + j + 1) % NUM_RINGBUFFERS
          = (s.mLatestRGBA + (j + 1) + 1) % NUM_RINGBUFFERS := by
        simp only [NUM_RINGBUFFERS]; omega
      rw [e1, e2] at h
      exact h

/-- C7. From a converted index i < 16, in k consecutive successful conversions the one
number j (from 0) starts with index (i + j) mod 16, has the kernel write into the converted
slot of that index, returns the pointer of that slot and leaves the index at
(i + j + 1) mod 16, which is below 16. -/
theorem convertAll_round_robin (s : gstPipeline) (cs : List Conversion)
    (hi : s.mLatestRGBA < NUM_RINGBUFFERS)
    (hok : ∀ st ∈ convertAll s cs, st.result.ret = true) :
    ∀ j st, (convertAll s cs)[j]? = some st →
      st.before.mLatestRGBA = (s.mLatestRGBA + j) % NUM_RINGBUFFERS ∧
      st.result.output
        = some (st.result.state.mRGBA ((s.mLatestRGBA + j) % NUM_RINGBUFFERS)) ∧
      (kernelCalls st.result.calls).map kernelOutput
        = [some (st.result.state.mRGBA ((s.mLatestRGBA + j) % NUM_RINGBUFFERS))] ∧
      st.result.state.mLatestRGBA = (s.mLatestRGBA + j + 1) % NUM_RINGBUFFERS ∧
      st.result.state.mLatestRGBA < NUM_RINGBUFFERS :=
  convertAll_slots cs s hi hok

theorem convertAll_round_robin_witness :
    demoConverted.mLatestRGBA < NUM_RINGBUFFERS ∧
    ∃ st, (convertAll demoConverted demoRequests)[16]? = some st ∧
      st.before.mLatestRGBA = 1 ∧ st.result.output = some (st.result.state.mRGBA 1) ∧
      st.result.state.mLatestRGBA = 2 := by
  have hlen : 16 < (convertAll demoConverted demoRequests).length := by decide
  have hget : (convertAll demoConverted demoRequests)[16]?
      = some ((convertAll demoConverted demoRequests).get ⟨16, hlen⟩) :=
    List.getElem?_eq_getElem hlen
  have h := convertAll_round_robin demoConverted demoRequests (by decide) (by decide) 16 _ hget
  exact ⟨by decide, _, hget, h.1, h.2.1, h.2.2.2.1⟩

/-! ## The slot indices stay in range -/

theorem checkBuffer_inv (s : gstPipeline) (pulled : Option GstSample)
    (alloc : Nat → Option (Ptr × Ptr)) (r : CheckResult) (h : Inv s)
    (hr : checkBuffer s pulled alloc = some r) : Inv r.state := by
  have hp : ∀ map w h', publish s map w h' alloc = some r → Inv r.state := by
    intro map w h' hpub
    obtain ⟨p1, _, _, _, p5, _⟩ := publish_some s map w h' alloc r hpub
    refine ⟨by rw [p5]; exact h.1, ?_⟩
    rw [p1]
    exact Nat.mod_lt _ (by decide)
  have hsame : ∀ calls, some ({ state := s, calls := calls } : CheckResult) = some r →
      Inv r.state := by
    intro calls he
    simp only [Option.some.injEq] at he
    subst he
    exact h
  unfold checkBuffer at hr
  repeat' split at hr
  all_goals first | exact hsame _ hr | exact hp _ _ _ hr

theorem capture_inv (s : gstPipeline) (cpu cuda : Bool) (timeout : Nat)
    (engine : GstStateChangeReturn) (signalled : Bool) (h : Inv s) :
    Inv (Capture s cpu cuda timeout engine signalled).state := by
  obtain ⟨h1, h2⟩ := h
  cases hs : s.mStreaming <;> cases engine <;> cases signalled <;>
    cases hr : s.mLatestRetrieved <;> simp_all [Capture, Open, Inv]

theorem convertRGBA_inv (s : gstPipeline) (input : Ptr) (output zeroCopy : Bool)
    (env : CudaEnv) (h : Inv s) : Inv (ConvertRGBA s input output zeroCopy env).state := by
  obtain ⟨_, f2, _, f4⟩ := convertRGBA_frame s input output zeroCopy env
  refine ⟨?_, by rw [f2]; exact h.2⟩
  cases hr : (ConvertRGBA s input output zeroCopy env).ret
  · rw [(f4 hr).1]; exact h.1
  · rw [(convertRGBA_success_slot s input output zeroCopy env hr).2.2]
    exact Nat.mod_lt _ (by decide)

/-! ## Lifecycle -/

/-- C9. Open on a Streaming pipeline returns true, changes nothing and asks nothing of the
engine. On a Closed pipeline it asks the engine once for PLAYING; it returns false, leaving
the state as it was (Closed), exactly when the answer is neither SUCCESS nor ASYNC, and for
SUCCESS and for ASYNC it returns true and the state becomes Streaming. -/
theorem open_lifecycle (s : gstPipeline) (result : GstStateChangeReturn) :
    (s.mStreaming = true → Open s result = { state := s, ret := true, calls := [] }) ∧
    (s.mStreaming = false →
      (((Open s result).ret = false ∧ (Open s result).state.mStreaming = false) ↔
        (result ≠ GstStateChangeReturn.SUCCESS ∧ result ≠ GstStateChangeReturn.ASYNC)) ∧
      ((Open s result).ret = false → (Open s result).state = s) ∧
      (result = GstStateChangeReturn.SUCCESS ∨ result = GstStateChangeReturn.ASYNC →
        (Open s result).ret = true ∧
        (Open s result).state = { s with mStreaming := true }) ∧
      (Open s result).calls.count (Call.setState GstState.PLAYING) = 1) := by
  constructor
  · intro h; simp [Open, h]
  · intro h
    cases result <;> simp [Open, h]

/-- C10. Close on a Closed pipeline changes nothing and asks nothing of the engine; on a
Streaming pipeline it asks the engine for the NULL state, waits, and the state becomes
Closed whatever the engine answers. The state after Close is always Closed, and a second
Close changes nothing and asks nothing. -/
theorem close_lifecycle (s : gstPipeline) (result result2 : GstStateChangeReturn) :
    (s.mStreaming = false → Close s result = { state := s, calls := [] }) ∧
    (s.mStreaming = true →
      (Close s result).state = { s with mStreaming := false } ∧
      (Close s result).calls = [Call.setState GstState.NULL, Call.usleep 250000]) ∧
    (Close s result).state.mStreaming = false ∧
    Close (Close s result).state result2 = { state := (Close s result).state, calls := [] } := by
  cases hs : s.mStreaming <;> cases result <;> simp [Close, hs]

/-! ## Ingest: dropped buffers and negotiated format -/

/-- C11. A raw buffer whose caps lack the width or the height, or give a width or a height
below 1, is dropped by checkBuffer: the call has an outcome, the whole state (latest index
and retrieved flag, width, height, depth, size, raw pool) is the state before the call,
nothing is copied or allocated (the sample is at most released) and the consumer is not
woken. -/
theorem checkBuffer_malformed_dropped (s : gstPipeline) (sample : GstSample)
    (alloc : Nat → Option (Ptr × Ptr)) (st : GstStructure)
    (hcaps : sample.caps = some { structure0 := some st }) (hbad : lacksUsableSize st) :
    ∃ r, checkBuffer s (some sample) alloc = some r ∧
      r.state = s ∧
      Call.wake ∉ r.calls ∧
      (∀ c ∈ r.calls, c = Call.sampleUnref) := by
  obtain ⟨buffer, caps⟩ := sample
  simp only at hcaps
  subst hcaps
  obtain ⟨width, height⟩ := st
  have hdrop : ∀ map : GstMapInfo,
      (match width, height with
        | some w, some h =>
          if w < 1 ∨ h < 1 then
            some ({ state := s, calls := [Call.sampleUnref] } : CheckResult)
          else publish s map w h alloc
        | _, _ => some { state := s, calls := [Call.sampleUnref] })
        = some { state := s, calls := [Call.sampleUnref] } := by
    intro map
    cases width with
    | none => rfl
    | some w =>
      cases height with
      | none => rfl
      | some h =>
        have hlt : w < 1 ∨ h < 1 := by
          rcases hbad with hb | hb | ⟨w', hw, hlt⟩ | ⟨h', hh, hlt⟩
          · simp at hb
          · simp at hb
          · simp only [Option.some.injEq] at hw; subst hw; exact Or.inl hlt
          · simp only [Option.some.injEq] at hh; subst hh; exact Or.inr hlt
        simp only [if_pos hlt]
  have hres : checkBuffer s
        (some { buffer := buffer
                caps := some { structure0 := some { width := width, height := height } } })
        alloc = some { state := s, calls := [] } ∨
      checkBuffer s
        (some { buffer := buffer
                caps := some { structure0 := some { width := width, height := height } } })
        alloc = some { state := s, calls := [Call.sampleUnref] } := by
    unfold checkBuffer
    split_ifs with h0
    · exact Or.inl rfl
    · cases buffer with
      | none => exact Or.inl rfl
      | some b =>
        cases hm : b.map with
        | none => left; simp [hm]
        | some map =>
          by_cases hd : map.data = 0
          · right; simp [hm, hd]
          · right
            simp only [hm, hd, if_false, hdrop map]
  rcases hres with h | h
  · exact ⟨_, h, rfl, by simp, by simp⟩
  · exact ⟨_, h, rfl, by simp, by simp⟩

theorem checkBuffer_malformed_dropped_witness :
    lacksUsableSize { width := some 1280, height := none } ∧
    ∃ r, checkBuffer demoPending (some demoMalformed) (demoAlloc 100) = some r ∧
      r.state = demoPending ∧ Call.wake ∉ r.calls := by
  obtain ⟨r, h0, h1, h2, _⟩ :=
    checkBuffer_malformed_dropped demoPending demoMalformed (demoAlloc 100)
      { width := some 1280, height := none } rfl (Or.inr (Or.inl rfl))
  exact ⟨Or.inr (Or.inl rfl), r, h0, h1, h2⟩

theorem uint32_of_int (n : Nat) (h : n < UINT32_RANGE) :
    ((n : Int) % (UINT32_RANGE : Int)).toNat = n := by
  unfold UINT32_RANGE at *
  omega

theorem publish_format (s : gstPipeline) (map : GstMapInfo) (w h : Int)
    (alloc : Nat → Option (Ptr × Ptr)) (r : CheckResult)
    (hr : publish s map w h alloc = some r) :
    r.state.mWidth = (w % (UINT32_RANGE : Int)).toNat ∧
    r.state.mHeight = (h % (UINT32_RANGE : Int)).toNat ∧
    r.state.mSize = map.size % UINT32_RANGE ∧
    r.state.mDepth
      = (((map.size % UINT32_RANGE) * 8) % UINT32_RANGE)
          / ((w * h) % (UINT32_RANGE : Int)).toNat := by
  unfold publish at hr
  simp only at hr
  split_ifs at hr
  all_goals
    simp only [Option.some.injEq] at hr
    subst hr
    simp

theorem nv12_depth (w h size : Nat) (hw : 1 ≤ w) (hh : 1 ≤ h) (heven : 2 ∣ w * h)
    (hsize : size = w * h * 3 / 2) (hfit : size * 8 < UINT32_RANGE) :
    w < UINT32_RANGE ∧ h < UINT32_RANGE ∧ w * h < UINT32_RANGE ∧ size % UINT32_RANGE = size ∧
    ((size * 8) % UINT32_RANGE) / (w * h) = 12 := by
  have hp : 0 < w * h := Nat.mul_pos hw hh
  have hwp : w ≤ w * h := Nat.le_mul_of_pos_right w hh
  have hhp : h ≤ w * h := Nat.le_mul_of_pos_left h hw
  have h12 : size * 8 = 12 * (w * h) := by omega
  have hlt : w * h < UINT32_RANGE := by omega
  refine ⟨by omega, by omega, hlt, Nat.mod_eq_of_lt (by omega), ?_⟩
  rw [Nat.mod_eq_of_lt hfit, h12]
  exact Nat.mul_div_cancel 12 hp

theorem capture_kernelCalls (s : gstPipeline) (cpu cuda : Bool) (timeout : Nat)
    (engine : GstStateChangeReturn) (signalled : Bool) :
    kernelCalls (Capture s cpu cuda timeout engine signalled).calls = [] ∧
    (Capture s cpu cuda timeout engine signalled).state.mWidth = s.mWidth ∧
    (Capture s cpu cuda timeout engine signalled).state.mHeight = s.mHeight ∧
    (Capture s cpu cuda timeout engine signalled).state.mDepth = s.mDepth := by
  cases hs : s.mStreaming <;> cases engine <;> cases signalled <;>
    cases hr : s.mLatestRetrieved <;> simp [Capture, Open, hs, hr, kernelCalls, isKernel]

theorem capture_success_cuda (s : gstPipeline) (timeout : Nat)
    (engine : GstStateChangeReturn) (signalled : Bool)
    (hok : (Capture s true true timeout engine signalled).ret = true) :
    (Capture s true true timeout engine signalled).cuda
      = some (s.mRingbufferGPU s.mLatestRingbuffer) := by
  cases hs : s.mStreaming <;> cases engine <;> cases signalled <;>
    cases hr : s.mLatestRetrieved <;> simp_all [Capture, Open]

theorem convertRGBA_nv12 (s : gstPipeline) (input : Ptr) (output zeroCopy : Bool)
    (env : CudaEnv) (hd : s.mDepth = 12) :
    (kernelCalls (ConvertRGBA s input output zeroCopy env).calls = [] ∨
      kernelCalls (ConvertRGBA s input output zeroCopy env).calls
        = [Call.cudaNV12ToRGBA32 input
            ((ConvertRGBA s input output zeroCopy env).state.mRGBA s.mLatestRGBA)
            s.mWidth s.mHeight]) ∧
    ((ConvertRGBA s input output zeroCopy env).ret = true →
      kernelCalls (ConvertRGBA s input output zeroCopy env).calls
        = [Call.cudaNV12ToRGBA32 input
            ((ConvertRGBA s input output zeroCopy env).state.mRGBA s.mLatestRGBA)
            s.mWidth s.mHeight]) := by
  rcases convertRGBA_cases s input output zeroCopy env with
    ⟨h1, h2, _⟩ | ⟨s1, pre, heq, hpre, e1, e2, e3, e4⟩
  · exact ⟨Or.inl h2, fun h => absurd (h1.symm.trans h) (by simp)⟩
  · have k1 := (dispatch_kernelCalls s1 input env pre hpre).1 (e1.trans hd)
    have hst : (dispatch s1 input env pre).state.mRGBA = s1.mRGBA :=
      (dispatch_frame s1 input env pre).1
    rw [heq, hst, k1, e2, e3, e4]
    exact ⟨Or.inr rfl, fun _ => rfl⟩

theorem captureRGBA_nv12 (t : gstPipeline) (output : Bool) (timeout : Nat) (zeroCopy : Bool)
    (engine : GstStateChangeReturn) (signalled : Bool) (env : CudaEnv) (hd : t.mDepth = 12) :
    (kernelCalls (CaptureRGBA t output timeout zeroCopy engine signalled env).calls = [] ∨
      kernelCalls (CaptureRGBA t output timeout zeroCopy engine signalled env).calls
        = [Call.cudaNV12ToRGBA32 (t.mRingbufferGPU t.mLatestRingbuffer)
            ((CaptureRGBA t output timeout zeroCopy engine signalled env).state.mRGBA
              t.mLatestRGBA) t.mWidth t.mHeight]) ∧
    ((CaptureRGBA t output timeout zeroCopy engine signalled env).ret = true →
      kernelCalls (CaptureRGBA t output timeout zeroCopy engine signalled env).calls
        = [Call.cudaNV12ToRGBA32 (t.mRingbufferGPU t.mLatestRingbuffer)
            ((CaptureRGBA t output timeout zeroCopy engine signalled env).state.mRGBA
              t.mLatestRGBA) t.mWidth t.mHeight]) := by
  obtain ⟨c1, c2, c3, c4⟩ := capture_kernelCalls t true true timeout engine signalled
  cases hc : (Capture t true true timeout engine signalled).ret with
  | false =>
    have hcalls : (CaptureRGBA t output timeout zeroCopy engine signalled env).calls
        = (Capture t true true timeout engine signalled).calls := by
      simp [CaptureRGBA, hc]
    have hret : (CaptureRGBA t output timeout zeroCopy engine signalled env).ret = false := by
      simp [CaptureRGBA, hc]
    rw [hcalls, c1, hret]
    exact ⟨Or.inl rfl, fun h => absurd h (by simp)⟩
  | true =>
    have hcuda := capture_success_cuda t timeout engine signalled hc
    have hidx := (capture_success_state t true true timeout engine signalled hc).2.2.2.1
    have hcalls : (CaptureRGBA t output timeout zeroCopy engine signalled env).calls
        = (Capture t true true timeout engine signalled).calls
          ++ (ConvertRGBA (Capture t true true timeout engine signalled).state
              (t.mRingbufferGPU t.mLatestRingbuffer) output zeroCopy env).calls := by
      simp [CaptureRGBA, hc, hcuda]
    have hstate : (CaptureRGBA t output timeout zeroCopy engine signalled env).state
        = (ConvertRGBA (Capture t true true timeout engine signalled).state
              (t.mRingbufferGPU t.mLatestRingbuffer) output zeroCopy env).state := by
      simp [CaptureRGBA, hc, hcuda]
    have hret : (CaptureRGBA t output timeout zeroCopy engine signalled env).ret
        = (ConvertRGBA (Capture t true true timeout engine signalled).state
              (t.mRingbufferGPU t.mLatestRingbuffer) output zeroCopy env).ret := by
      simp [CaptureRGBA, hc, hcuda]
    obtain ⟨n1, n2⟩ := convertRGBA_nv12 (Capture t true true timeout engine signalled).state
      (t.mRingbufferGPU t.mLatestRingbuffer) output zeroCopy env (c4.trans hd)
    rw [c2, c3, hidx] at n1 n2
    rw [hcalls, hstate, hret, kernelCalls_append, c1, List.nil_append]
    exact ⟨n1, n2⟩

/-- C12. Ingesting one valid NV12 buffer of w x h pixels (w, h >= 1, w*h even) and
s = w*h*3/2 bytes with s*8 below 2^32, into a raw slot that is allocated with room for s
bytes, has an outcome and makes GetWidth = w, GetHeight = h, GetSize = s and
GetPixelDepth = 12; a CaptureRGBA from that state invokes no kernel other than the NV12
kernel, on the latest raw device buffer with width w and height h, and invokes it when it
returns true. -/
theorem checkBuffer_nv12_format (s : gstPipeline) (f : RawFrame) (w h : Nat)
    (hs : s.mAppSink ≠ 0) (hdata : f.map.data ≠ 0)
    (hfw : f.width = (w : Int)) (hfh : f.height = (h : Int))
    (hw : 1 ≤ w) (hh : 1 ≤ h) (heven : 2 ∣ w * h)
    (hsize : f.map.size = w * h * 3 / 2) (hfit : f.map.size * 8 < UINT32_RANGE)
    (hslot : slotWritable s f.map.size f.alloc) :
    ∃ r, checkBuffer s (some f.sample) f.alloc = some r ∧
      GetWidth r.state = w ∧ GetHeight r.state = h ∧ GetSize r.state = f.map.size ∧
      GetPixelDepth r.state = 12 ∧
      ∀ (output : Bool) (timeout : Nat) (zeroCopy : Bool) (engine : GstStateChangeReturn)
        (signalled : Bool) (env : CudaEnv),
        (kernelCalls (CaptureRGBA r.state output timeout zeroCopy engine signalled
            env).calls = [] ∨
          kernelCalls (CaptureRGBA r.state output timeout zeroCopy engine signalled env).calls
            = [Call.cudaNV12ToRGBA32 (r.state.mRingbufferGPU r.state.mLatestRingbuffer)
                ((CaptureRGBA r.state output timeout zeroCopy engine signalled
                  env).state.mRGBA r.state.mLatestRGBA) w h]) ∧
        ((CaptureRGBA r.state output timeout zeroCopy engine signalled env).ret = true →
          kernelCalls (CaptureRGBA r.state output timeout zeroCopy engine signalled env).calls
            = [Call.cudaNV12ToRGBA32 (r.state.mRingbufferGPU r.state.mLatestRingbuffer)
                ((CaptureRGBA r.state output timeout zeroCopy engine signalled
                  env).state.mRGBA r.state.mLatestRGBA) w h]) := by
  have hvalid : f.valid := ⟨hdata, by rw [hfw]; exact_mod_cast hw, by rw [hfh]; exact_mod_cast hh⟩
  obtain ⟨a1, a2, a3, a4, a5⟩ := nv12_depth w h f.map.size hw hh heven hsize hfit
  have hprod : (f.width * f.height) = ((w * h : Nat) : Int) := by
    rw [hfw, hfh]; push_cast; rfl
  have hpix : ((f.width * f.height) % (UINT32_RANGE : Int)).toNat ≠ 0 := by
    rw [hprod, uint32_of_int (w * h) a3]
    exact Nat.ne_of_gt (Nat.mul_pos hw hh)
  have hslot' : slotWritable s (f.map.size % UINT32_RANGE) f.alloc := by
    rw [a4]; exact hslot
  obtain ⟨r, hr⟩ := publish_returns s f.map f.width f.height f.alloc hpix hslot'
  obtain ⟨p1, p2, p3, p4⟩ := publish_format s f.map f.width f.height f.alloc r hr
  have hW : r.state.mWidth = w := by
    rw [p1, hfw, uint32_of_int w a1]
  have hH : r.state.mHeight = h := by
    rw [p2, hfh, uint32_of_int h a2]
  have hS : r.state.mSize = f.map.size := by
    rw [p3, a4]
  have hD : r.state.mDepth = 12 := by
    rw [p4, hprod, uint32_of_int (w * h) a3, a4, a5]
  refine ⟨r, by rw [checkBuffer_valid s f hs hvalid, hr], hW, hH, hS, hD, ?_⟩
  intro output timeout zeroCopy engine signalled env
  have h := captureRGBA_nv12 r.state output timeout zeroCopy engine signalled env hD
  rw [hW, hH] at h
  exact h

theorem checkBuffer_nv12_format_witness :
    GetWidth demoPending = 1280 ∧ GetHeight demoPending = 720 ∧
    GetSize demoPending = 1382400 ∧ GetPixelDepth demoPending = 12 ∧
    kernelCalls (CaptureRGBA demoPending true 1000 false GstStateChangeReturn.SUCCESS true
        (demoEnv 500 true)).calls
      = [Call.cudaNV12ToRGBA32 (demoPending.mRingbufferGPU demoPending.mLatestRingbuffer)
          ((CaptureRGBA demoPending true 1000 false GstStateChangeReturn.SUCCESS true
            (demoEnv 500 true)).state.mRGBA demoPending.mLatestRGBA) 1280 720] := by
  obtain ⟨r, h0, h1, h2, h3, h4, h5⟩ :=
    checkBuffer_nv12_format demoStreaming (demoFrame 1) 1280 720
      (by decide) (by decide) rfl rfl (by decide) (by decide) (by decide) (by decide)
      (by decide)
      (by
        unfold slotWritable
        rw [if_pos (by decide)]
        exact ⟨101, 101, by decide, by decide⟩)
  have e : ingestAll demoStreaming (demoFrames 1) = some r.state := by
    show (match checkBuffer demoStreaming (some (demoFrame 1).sample) (demoFrame 1).alloc with
      | none => none
      | some r => ingestAll r.state []) = some r.state
    rw [h0]
    rfl
  have hstate : r.state = demoPending := by
    show r.state = (ingestAll demoStreaming (demoFrames 1)).getD demoStreaming
    rw [e]
    rfl
  have hk := h5 true 1000 false GstStateChangeReturn.SUCCESS true (demoEnv 500 true)
  rw [hstate] at h1 h2 h3 h4 hk
  exact ⟨h1, h2, h3, h4, hk.2 (by decide)⟩

/-! ## Size of the converted slots -/

theorem convertRGBA_first_allocation (s : gstPipeline) (input : Ptr) (zeroCopy : Bool)
    (env : CudaEnv) (h0 : s.mRGBA 0 = 0) (henv : nonNull env)
    (hok : (ConvertRGBA s input true zeroCopy env).ret = true) :
    memoryCalls (ConvertRGBA s input true zeroCopy env).calls
      = (List.range NUM_RINGBUFFERS).map
          (fun _ => allocCall zeroCopy (((s.mWidth * s.mHeight) % UINT32_RANGE) * SIZEOF_FLOAT4)) := by
  have hin : input ≠ 0 := (convertRGBA_input s input true zeroCopy env hok).1
  have hrel : releaseOnModeChange s zeroCopy = (s, []) := by
    simp [releaseOnModeChange, h0]
  cases ha : (allocRGBA zeroCopy (((s.mWidth * s.mHeight) % UINT32_RANGE) * SIZEOF_FLOAT4) env
      (List.range NUM_RINGBUFFERS) s.mRGBA []).1 with
  | false => simp [ConvertRGBA, hin, hrel, h0, ha] at hok
  | true =>
    obtain ⟨_, _, k3⟩ := allocRGBA_success zeroCopy _ env henv _ _ _ ha
    have heq : ConvertRGBA s input true zeroCopy env
        = dispatch
            { s with
              mRGBA := (allocRGBA zeroCopy
                (((s.mWidth * s.mHeight) % UINT32_RANGE) * SIZEOF_FLOAT4) env
                (List.range NUM_RINGBUFFERS) s.mRGBA []).2.1
              mRGBAZeroCopy := zeroCopy } input env
            (allocRGBA zeroCopy (((s.mWidth * s.mHeight) % UINT32_RANGE) * SIZEOF_FLOAT4) env
                (List.range NUM_RINGBUFFERS) s.mRGBA []).2.2 := by
      simp [ConvertRGBA, hin, hrel, h0, ha]
    rw [heq, (dispatch_frame _ input env _).2.2.1, k3, List.nil_append, memoryCalls_alloc]

theorem convertRGBA_first_allocation_exact (s : gstPipeline) (input : Ptr) (zeroCopy : Bool)
    (env : CudaEnv) (h0 : s.mRGBA 0 = 0) (henv : nonNull env)
    (hok : (ConvertRGBA s input true zeroCopy env).ret = true)
    (hfit : s.mWidth * s.mHeight < UINT32_RANGE) :
    memoryCalls (ConvertRGBA s input true zeroCopy env).calls
      = (List.range NUM_RINGBUFFERS).map
          (fun _ => allocCall zeroCopy (s.mWidth * s.mHeight * 4 * 4)) := by
  rw [convertRGBA_first_allocation s input zeroCopy env h0 henv hok, Nat.mod_eq_of_lt hfit]
  have e : s.mWidth * s.mHeight * SIZEOF_FLOAT4 = s.mWidth * s.mHeight * 4 * 4 := by
    unfold SIZEOF_FLOAT4; omega
  rw [e]

/-- C13 (the code at the failing input). With mWidth = mHeight = 65536 the first allocation
of the converted pool asks sixteen times for 0 bytes, while width x height x 4 x 4 is
68719476736: the product of the two 32-bit values wraps before it is widened. -/
theorem convertRGBA_slot_size_wraps :
    demoHuge.mWidth = 65536 ∧ demoHuge.mHeight = 65536 ∧
    (ConvertRGBA demoHuge 8192 true false (demoEnv 500 true)).ret = true ∧
    memoryCalls (ConvertRGBA demoHuge 8192 true false (demoEnv 500 true)).calls
      = List.replicate 16 (Call.cudaMalloc 0) ∧
    demoHuge.mWidth * demoHuge.mHeight * 4 * 4 = 68719476736 := by
  decide

/-! ## A failed Capture keeps the pending frame -/

/-- C14. From a state holding a published, unretrieved frame, a Capture that fails because
the implicit Open failed or because the wait timed out returns false, leaves the latest
index and the retrieved flag as they were and writes neither output pointer; the next
Capture that reaches its wait and is signalled returns true with the pointers of that same
raw slot. -/
theorem capture_failure_keeps_pending (s : gstPipeline) (cpu cuda : Bool)
    (timeout timeout2 : Nat) (engine engine2 : GstStateChangeReturn) (signalled : Bool)
    (hpend : s.mLatestRetrieved = false)
    (hfail : (s.mStreaming = false ∧ engine ≠ GstStateChangeReturn.SUCCESS
        ∧ engine ≠ GstStateChangeReturn.ASYNC) ∨ signalled = false)
    (hreach : (Capture s cpu cuda timeout engine signalled).state.mStreaming = true
      ∨ engine2 = GstStateChangeReturn.SUCCESS ∨ engine2 = GstStateChangeReturn.ASYNC) :
    (Capture s cpu cuda timeout engine signalled).ret = false ∧
    (Capture s cpu cuda timeout engine signalled).state.mLatestRingbuffer
      = s.mLatestRingbuffer ∧
    (Capture s cpu cuda timeout engine signalled).state.mLatestRetrieved = false ∧
    (Capture s cpu cuda timeout engine signalled).cpu = none ∧
    (Capture s cpu cuda timeout engine signalled).cuda = none ∧
    (Capture (Capture s cpu cuda timeout engine signalled).state true true timeout2 engine2
        true).ret = true ∧
    (Capture (Capture s cpu cuda timeout engine signalled).state true true timeout2 engine2
        true).cpu = some (s.mRingbufferCPU s.mLatestRingbuffer) ∧
    (Capture (Capture s cpu cuda timeout engine signalled).state true true timeout2 engine2
        true).cuda = some (s.mRingbufferGPU s.mLatestRingbuffer) := by
  have hfacts : (Capture s cpu cuda timeout engine signalled).ret = false ∧
      (Capture s cpu cuda timeout engine signalled).cpu = none ∧
      (Capture s cpu cuda timeout engine signalled).cuda = none ∧
      (Capture s cpu cuda timeout engine signalled).state.mLatestRingbuffer
        = s.mLatestRingbuffer ∧
      (Capture s cpu cuda timeout engine signalled).state.mLatestRetrieved = false ∧
      (Capture s cpu cuda timeout engine signalled).state.mRingbufferCPU = s.mRingbufferCPU ∧
      (Capture s cpu cuda timeout engine signalled).state.mRingbufferGPU
        = s.mRingbufferGPU := by
    rcases hfail with ⟨hs, h1, h2⟩ | hsig
    · cases engine <;> simp_all [Capture, Open]
    · subst hsig
      cases hs : s.mStreaming <;> cases engine <;> simp_all [Capture, Open]
  obtain ⟨f1, f2, f3, f4, f5, f6, f7⟩ := hfacts
  obtain ⟨d1, d2, d3, _⟩ := capture_delivers (Capture s cpu cuda timeout engine signalled).state
    timeout2 engine2 hreach f5
  rw [f4, f6] at d2
  rw [f4, f7] at d3
  exact ⟨f1, f4, f5, f2, f3, d1, d2, d3⟩

theorem capture_failure_keeps_pending_witness :
    demoPending.mLatestRetrieved = false ∧
    (Capture demoPending true true 1000 GstStateChangeReturn.SUCCESS false).ret = false ∧
    (Capture (Capture demoPending true true 1000 GstStateChangeReturn.SUCCESS false).state
        true true 1000 GstStateChangeReturn.SUCCESS true).ret = true ∧
    (Capture (Capture demoPending true true 1000 GstStateChangeReturn.SUCCESS false).state
        true true 1000 GstStateChangeReturn.SUCCESS true).cpu
      = some (demoPending.mRingbufferCPU demoPending.mLatestRingbuffer) := by
  have h := capture_failure_keeps_pending demoPending true true 1000 1000
    GstStateChangeReturn.SUCCESS GstStateChangeReturn.SUCCESS false (by decide)
    (Or.inr rfl) (Or.inr (Or.inl rfl))
  exact ⟨by decide, h.1, h.2.2.2.2.2.1, h.2.2.2.2.2.2.1⟩

/-! ## A kernel failure after the pool was (re)allocated -/

theorem freeRGBA_null (mode : Bool) (ns : List Nat) :
    ∀ (rgba : Nat → Ptr) (calls : List Call),
      (∀ i, rgba i = 0 → (freeRGBA mode ns rgba calls).1 i = 0) ∧
      (∀ n ∈ ns, (freeRGBA mode ns rgba calls).1 n = 0) ∧
      allocCalls (freeRGBA mode ns rgba calls).2 = allocCalls calls := by
  induction ns with
  | nil => intro rgba calls; exact ⟨fun _ h => h, fun _ h => absurd h (by simp), rfl⟩
  | cons n ns ih =>
    intro rgba calls
    rw [freeRGBA]
    by_cases h : rgba n ≠ 0
    · rw [if_pos h]
      obtain ⟨k1, k2, k3⟩ := ih (Function.update rgba n 0)
        (calls ++ [if mode then Call.cudaFreeHost (rgba n) else Call.cudaFree (rgba n)])
      refine ⟨?_, ?_, ?_⟩
      · intro i hi
        apply k1
        by_cases hin : i = n
        · subst hin; simp
        · simpa [Function.update, hin] using hi
      · intro m hm
        rcases List.mem_cons.mp hm with e | e
        · subst e; exact k1 _ (by simp)
        · exact k2 m e
      · rw [k3]
        cases mode <;> simp [allocCalls, isAlloc]
    · rw [if_neg h]
      obtain ⟨k1, k2, k3⟩ := ih rgba calls
      refine ⟨k1, ?_, k3⟩
      intro m hm
      rcases List.mem_cons.mp hm with e | e
      · subst e; exact k1 _ (by simpa using h)
      · exact k2 m e

theorem allocRGBA_slots (zeroCopy : Bool) (size : Nat) (env : CudaEnv) (ns : List Nat) :
    ∀ (rgba : Nat → Ptr) (calls : List Call), ns.Nodup →
      (allocRGBA zeroCopy size env ns rgba calls).1 = true →
      (∀ i, i ∉ ns → (allocRGBA zeroCopy size env ns rgba calls).2.1 i = rgba i) ∧
      (∀ n ∈ ns,
        slotAnswer env zeroCopy n = some ((allocRGBA zeroCopy size env ns rgba calls).2.1 n)) ∧
      (allocRGBA zeroCopy size env ns rgba calls).2.2
        = calls ++ ns.map (fun _ => allocCall zeroCopy size) := by
  induction ns with
  | nil => intro rgba calls _ _; simp [allocRGBA]
  | cons n ns ih =>
    intro rgba calls hnd hok
    obtain ⟨hn, hnd'⟩ := List.nodup_cons.mp hnd
    have hstep : ∀ (q : Ptr) (c : Call), slotAnswer env zeroCopy n = some q →
        c = allocCall zeroCopy size →
        allocRGBA zeroCopy size env (n :: ns) rgba calls
          = allocRGBA zeroCopy size env ns (Function.update rgba n q) (calls ++ [c]) →
        (∀ i, i ∉ n :: ns →
          (allocRGBA zeroCopy size env (n :: ns) rgba calls).2.1 i = rgba i) ∧
        (∀ m ∈ n :: ns, slotAnswer env zeroCopy m
          = some ((allocRGBA zeroCopy size env (n :: ns) rgba calls).2.1 m)) ∧
        (allocRGBA zeroCopy size env (n :: ns) rgba calls).2.2
          = calls ++ (n :: ns).map (fun _ => allocCall zeroCopy size) := by
      intro q c hq hc heq
      rw [heq] at hok ⊢
      obtain ⟨k1, k2, k3⟩ := ih _ _ hnd' hok
      refine ⟨?_, ?_, ?_⟩
      · intro i hi
        have hin : i ≠ n := fun e => hi (e ▸ List.mem_cons_self n ns)
        rw [k1 i (fun e => hi (List.mem_cons_of_mem n e))]
        simp [Function.update, hin]
      · intro m hm
        rcases List.mem_cons.mp hm with e | e
        · subst e
          rw [k1 m hn, hq]
          simp
        · exact k2 m e
      · rw [k3, hc]; simp
    cases zeroCopy with
    | true =>
      cases hm : env.allocMapped n with
      | none => simp [allocRGBA, hm] at hok
      | some pr =>
        obtain ⟨c, g⟩ := pr
        by_cases hcg : c = g
        · exact hstep g (Call.cudaAllocMapped size) (by simp [slotAnswer, hm, hcg]) rfl
            (by simp [allocRGBA, hm, hcg])
        · simp [allocRGBA, hm, hcg] at hok
    | false =>
      cases hm : env.malloc n with
      | none => simp [allocRGBA, hm] at hok
      | some q =>
        exact hstep q (Call.cudaMalloc size) (by simp [slotAnswer, hm]) rfl
          (by simp [allocRGBA, hm])

theorem allocCalls_alloc (zeroCopy : Bool) (size : Nat) (ns : List Nat) :
    allocCalls (ns.map (fun _ => allocCall zeroCopy size))
      = ns.map (fun _ => allocCall zeroCopy size) := by
  induction ns with
  | nil => rfl
  | cons n ns ih =>
    simp only [allocCalls] at ih
    cases zeroCopy <;> simp [allocCalls, allocCall, isAlloc, ih]

theorem releaseOnModeChange_needed (s : gstPipeline) (zeroCopy : Bool)
    (hneed : s.mRGBA 0 = 0 ∨ zeroCopy ≠ s.mRGBAZeroCopy) :
    (releaseOnModeChange s zeroCopy).1.mRGBA 0 = 0 ∧
    allocCalls (releaseOnModeChange s zeroCopy).2 = [] ∧
    kernelCalls (releaseOnModeChange s zeroCopy).2 = [] ∧
    ∀ (pool : Nat → Ptr) (flag : Bool),
      ({ (releaseOnModeChange s zeroCopy).1 with mRGBA := pool, mRGBAZeroCopy := flag }
        : gstPipeline) = { s with mRGBA := pool, mRGBAZeroCopy := flag } := by
  have hk := (releaseOnModeChange_frame s zeroCopy).2.2.2.2
  unfold releaseOnModeChange at hk ⊢
  by_cases h0 : s.mRGBA 0 = 0
  · have hc : ¬ (s.mRGBA 0 ≠ 0 ∧ zeroCopy ≠ s.mRGBAZeroCopy) := fun h => h.1 h0
    simp only [if_neg hc] at hk ⊢
    exact ⟨h0, rfl, hk, by intros; first | rfl | trivial⟩
  · have hz : zeroCopy ≠ s.mRGBAZeroCopy := by
      rcases hneed with h | h
      · exact absurd h h0
      · exact h
    have hc : s.mRGBA 0 ≠ 0 ∧ zeroCopy ≠ s.mRGBAZeroCopy := ⟨h0, hz⟩
    simp only [if_pos hc] at hk ⊢
    obtain ⟨_, k2, k3⟩ := freeRGBA_null s.mRGBAZeroCopy (List.range NUM_RINGBUFFERS) s.mRGBA []
    exact ⟨k2 0 (List.mem_range.mpr (by decide)), by rw [k3]; rfl, hk,
      by intros; first | rfl | trivial⟩

theorem dispatch_failure (s : gstPipeline) (input : Ptr) (env : CudaEnv) (pre : List Call)
    (hk : env.kernelOk = false) :
    (dispatch s input env pre).state = s ∧
    ∃ k, (dispatch s input env pre).calls = pre ++ [k] ∧ isKernel k = true := by
  simp only [dispatch, hk]
  split_ifs <;> simp_all [isKernel]

/-- C6 (amended). If the kernel reports failure, ConvertRGBA returns false, writes no output
pointer and leaves the converted index unchanged. When the pool is already allocated in the
requested mode (slot 0 non-NULL and the flag equal to the pool mode) the whole state, slot
allocations and mode flag included, is the state before the call. When the kernel was
reached on a pool that was unallocated or in the other mode, the pool has been allocated by
sixteen allocations in the requested mode before the kernel call and stays so: every slot
holds the buffer its allocation answered, the mode flag is the requested flag and nothing
else of the state has changed. -/
theorem convertRGBA_kernel_failure (s : gstPipeline) (input : Ptr) (output zeroCopy : Bool)
    (env : CudaEnv) (hk : env.kernelOk = false) :
    (ConvertRGBA s input output zeroCopy env).ret = false ∧
    (ConvertRGBA s input output zeroCopy env).output = none ∧
    (ConvertRGBA s input output zeroCopy env).state.mLatestRGBA = s.mLatestRGBA ∧
    (s.mRGBA 0 ≠ 0 → zeroCopy = s.mRGBAZeroCopy →
      (ConvertRGBA s input output zeroCopy env).state = s) ∧
    (kernelCalls (ConvertRGBA s input output zeroCopy env).calls ≠ [] →
      s.mRGBA 0 = 0 ∨ zeroCopy ≠ s.mRGBAZeroCopy →
      (ConvertRGBA s input output zeroCopy env).state.mRGBAZeroCopy = zeroCopy ∧
      (∀ n, n < NUM_RINGBUFFERS → slotAnswer env zeroCopy n
        = some ((ConvertRGBA s input output zeroCopy env).state.mRGBA n)) ∧
      (ConvertRGBA s input output zeroCopy env).state
        = { s with
            mRGBA := (ConvertRGBA s input output zeroCopy env).state.mRGBA
            mRGBAZeroCopy := zeroCopy } ∧
      ∃ pre k, (ConvertRGBA s input output zeroCopy env).calls = pre ++ [k] ∧
        isKernel k = true ∧
        allocCalls pre = (List.range NUM_RINGBUFFERS).map
          (fun _ => allocCall zeroCopy
            (((s.mWidth * s.mHeight) % UINT32_RANGE) * SIZEOF_FLOAT4))) := by
  have hret : (ConvertRGBA s input output zeroCopy env).ret = false := by
    simp only [ConvertRGBA, releaseOnModeChange, dispatch]
    split_ifs <;> simp_all
  obtain ⟨_, _, _, f4⟩ := convertRGBA_frame s input output zeroCopy env
  refine ⟨hret, (f4 hret).2, (f4 hret).1, ?_, ?_⟩
  · intro h0 hz
    simp only [ConvertRGBA, releaseOnModeChange, dispatch]
    split_ifs <;> simp_all
  · intro hreach hneed
    obtain ⟨r0, r1, r2, r3⟩ := releaseOnModeChange_needed s zeroCopy hneed
    obtain ⟨_, w1, w2, _, _⟩ := releaseOnModeChange_frame s zeroCopy
    have hin : ¬ (input = 0 ∨ output = false) := by
      intro h
      apply hreach
      simp [ConvertRGBA, h, kernelCalls]
    cases ha : (allocRGBA zeroCopy
        ((((releaseOnModeChange s zeroCopy).1.mWidth
          * (releaseOnModeChange s zeroCopy).1.mHeight) % UINT32_RANGE) * SIZEOF_FLOAT4)
        env (List.range NUM_RINGBUFFERS) (releaseOnModeChange s zeroCopy).1.mRGBA []).1 with
    | false =>
      exfalso
      apply hreach
      simp only [ConvertRGBA, hin, r0, ha, if_false, if_true, Bool.not_false]
      rw [kernelCalls_append, r2, allocRGBA_kernelCalls]
      rfl
    | true =>
      obtain ⟨_, k2, k3⟩ := allocRGBA_slots zeroCopy _ env _ _ _ (List.nodup_range _) ha
      have heq : ConvertRGBA s input output zeroCopy env
          = dispatch
              { (releaseOnModeChange s zeroCopy).1 with
                mRGBA := (allocRGBA zeroCopy
                  ((((releaseOnModeChange s zeroCopy).1.mWidth
                    * (releaseOnModeChange s zeroCopy).1.mHeight) % UINT32_RANGE)
                    * SIZEOF_FLOAT4) env (List.range NUM_RINGBUFFERS)
                  (releaseOnModeChange s zeroCopy).1.mRGBA []).2.1
                mRGBAZeroCopy := zeroCopy } input env
              ((releaseOnModeChange s zeroCopy).2 ++ (allocRGBA zeroCopy
                  ((((releaseOnModeChange s zeroCopy).1.mWidth
                    * (releaseOnModeChange s zeroCopy).1.mHeight) % UINT32_RANGE)
                    * SIZEOF_FLOAT4) env (List.range NUM_RINGBUFFERS)
                  (releaseOnModeChange s zeroCopy).1.mRGBA []).2.2) := by
        simp [ConvertRGBA, hin, r0, ha]
      obtain ⟨d1, k, d2, d3⟩ := dispatch_failure
        { (releaseOnModeChange s zeroCopy).1 with
          mRGBA := (allocRGBA zeroCopy
            ((((releaseOnModeChange s zeroCopy).1.mWidth
              * (releaseOnModeChange s zeroCopy).1.mHeight) % UINT32_RANGE)
              * SIZEOF_FLOAT4) env (List.range NUM_RINGBUFFERS)
            (releaseOnModeChange s zeroCopy).1.mRGBA []).2.1
          mRGBAZeroCopy := zeroCopy } input env
        ((releaseOnModeChange s zeroCopy).2 ++ (allocRGBA zeroCopy
            ((((releaseOnModeChange s zeroCopy).1.mWidth
              * (releaseOnModeChange s zeroCopy).1.mHeight) % UINT32_RANGE)
              * SIZEOF_FLOAT4) env (List.range NUM_RINGBUFFERS)
            (releaseOnModeChange s zeroCopy).1.mRGBA []).2.2) hk
      rw [heq, d1]
      refine ⟨rfl, fun n hn => k2 n (List.mem_range.mpr hn), r3 _ _, _, k, d2, d3, ?_⟩
      simp only [allocCalls, List.filter_append] at r1 ⊢
      rw [r1, k3, List.nil_append, List.nil_append, ← w1, ← w2]
      exact allocCalls_alloc zeroCopy _ _

theorem convertRGBA_kernel_failure_witness :
    (demoEnv 600 false).kernelOk = false ∧
    (ConvertRGBA demoConverted 8192 true false (demoEnv 600 false)).ret = false ∧
    (ConvertRGBA demoConverted 8192 true false (demoEnv 600 false)).state = demoConverted ∧
    (ConvertRGBA demoConverted 8192 true true (demoEnv 600 false)).state.mRGBAZeroCopy
      = true ∧
    (∀ n, n < NUM_RINGBUFFERS → slotAnswer (demoEnv 600 false) true n
      = some ((ConvertRGBA demoConverted 8192 true true (demoEnv 600 false)).state.mRGBA n)) :=
  ⟨rfl,
    (convertRGBA_kernel_failure demoConverted 8192 true false (demoEnv 600 false) rfl).1,
    (convertRGBA_kernel_failure demoConverted 8192 true false (demoEnv 600 false) rfl).2.2.2.1
      (by decide) (by decide),
    ((convertRGBA_kernel_failure demoConverted 8192 true true (demoEnv 600 false) rfl).2.2.2.2
      (by decide) (Or.inr (by decide))).1,
    ((convertRGBA_kernel_failure demoConverted 8192 true true (demoEnv 600 false) rfl).2.2.2.2
      (by decide) (Or.inr (by decide))).2.1⟩

end gstPipeline

end GstPipeline
